import Mathlib

/-!
Verification development for the Landsat bronze-ingestion pipeline
(`src/etl/bronze_ingestion.py`, `src/etl/m2m_client.py`, `src/etl/mtl_parser.py`,
`src/etl/utils.py`).

The Python code is shallowly embedded: pure helpers become Lean functions;
the stateful orchestration becomes explicit state passing over a `World`
record (filesystem, database tables, and an instrumentation trace of the
remote calls that were issued); Python exceptions become `Except PyErr`;
remote HTTP exchanges are oracle inputs (`HttpOutcome`) so that every
control-flow path of the source is reachable in the model.
-/

namespace Landsat

/-! ## Python-style primitives -/

/-- Python `sub in s` on the character lists of two strings:
substring containment (the empty string is contained in everything). -/
def containsSub (hay sub : List Char) : Bool :=
  (List.range (hay.length + 1)).any fun i => ((hay.drop i).take sub.length) == sub

/-- Python `sub in s` for strings. -/
def pyIn (sub s : String) : Bool :=
  containsSub s.data sub.data

/-- Python `x in list` for string lists (membership by equality). -/
def strMem (a : String) : List String → Bool
  | [] => false
  | b :: rest => if a = b then true else strMem a rest

/-- `str.lower()` (character-wise, structural so that the kernel can
evaluate it). -/
def strLower (s : String) : String := ⟨s.data.map Char.toLower⟩

/-- `str.upper()`. -/
def strUpper (s : String) : String := ⟨s.data.map Char.toUpper⟩

def isPySpace (c : Char) : Bool := c = ' ' ∨ c = '\t' ∨ c = '\n' ∨ c = '\r'

/-- `str.strip()`. -/
def pyStrip (s : String) : String :=
  ⟨((s.data.dropWhile isPySpace).reverse.dropWhile isPySpace).reverse⟩

/-- `str.startswith(pre)`. -/
def startsWithL (s pre : String) : Bool := pre.data.isPrefixOf s.data

/-- `str.endswith(suf)` (glob `*X` matching in `_find_mtl_file`). -/
def endsWithL (s suf : String) : Bool := suf.data.isSuffixOf s.data

/-- `s[:n]`. -/
def strTake (s : String) (n : Nat) : String := ⟨s.data.take n⟩

def splitOnCharAux (c : Char) : List Char → List Char → List String
  | [], acc => [⟨acc.reverse⟩]
  | x :: rest, acc =>
    if x = c then ⟨acc.reverse⟩ :: splitOnCharAux c rest []
    else splitOnCharAux c rest (x :: acc)

/-- `str.split(c)` for a one-character separator. -/
def splitOnChar (c : Char) (s : String) : List String := splitOnCharAux c s.data []

/-! ## `utils.get_sensor_from_entity_id` (src/etl/utils.py:322-358) -/

/-- The literal `sensor_map` dictionary of the source. -/
def sensor_map : List (String × String) :=
  [("LC08", "OLI"), ("LC09", "OLI"), ("LC8", "OLI"), ("LC9", "OLI"),
   ("LE07", "ETM+"), ("LE7", "ETM+"),
   ("LT05", "TM"), ("LT04", "TM"), ("LT5", "TM"), ("LT4", "TM")]

/-- `get_sensor_from_entity_id`: the satellite code is the first 4 characters
when the id contains an underscore, else the first 3; unknown codes map to
`"UNKNOWN"`. -/
def get_sensor_from_entity_id (entityId : String) : String :=
  let satellite := if pyIn "_" entityId then strTake entityId 4 else strTake entityId 3
  (sensor_map.lookup satellite).getD "UNKNOWN"

/-! ## Configuration (config.yaml is outside src/; it is carried abstractly as
the dataset→band-name mapping described in §6 of the spec) -/

structure BandsConfig where
  green : Option String
  swir1 : Option String
  qa_pixel : Option String
  qa_radsat : Option String
  qa_aerosol : Option String
  metadata : Option String
  deriving DecidableEq, Repr

structure DatasetsConfig where
  landsat_8_9 : BandsConfig
  landsat_7 : BandsConfig
  landsat_4_5 : BandsConfig
  deriving DecidableEq, Repr

/-- Python truthiness of `bands.get(key)` (an optional string). -/
def optStrTruthy : Option String → Bool
  | none => false
  | some s => s ≠ ""

/-- `BronzeIngestion._get_required_bands` (bronze_ingestion.py:348-379):
`sensor_to_dataset.get(sensor, 'landsat_8_9')`. -/
def sensor_to_dataset_key (sensor : String) : String :=
  if sensor = "OLI" then "landsat_8_9"
  else if sensor = "ETM+" then "landsat_7"
  else if sensor = "TM" then "landsat_4_5"
  else "landsat_8_9"

/-- `self.config['datasets'][dataset_key]`. -/
def dataset_config_for (c : DatasetsConfig) (key : String) : BandsConfig :=
  if key = "landsat_8_9" then c.landsat_8_9
  else if key = "landsat_7" then c.landsat_7
  else c.landsat_4_5

/-- `BronzeIngestion._get_required_bands`: collect green, swir1, qa_pixel,
qa_radsat, metadata, append qa_aerosol when truthy, then keep only truthy
entries (`[b for b in required if b]`). -/
def get_required_bands (config : DatasetsConfig) (sensor : String) : List String :=
  let bands := dataset_config_for config (sensor_to_dataset_key sensor)
  let required := [bands.green, bands.swir1, bands.qa_pixel, bands.qa_radsat, bands.metadata]
  let required := if optStrTruthy bands.qa_aerosol then required ++ [bands.qa_aerosol] else required
  required.filterMap fun b =>
    match b with
    | some s => if s ≠ "" then some s else none
    | none => none

/-! ## `BronzeIngestion._extract_band_name` (bronze_ingestion.py:530-551) -/

/-- The scan over `filename.split('_')`: at the first part equal to
`SR`/`ST`/`QA` that has a successor part, return `part + "_" +
successor-before-first-dot`. A trailing match without successor finds
nothing (the Python loop needs `i + 1 < len(parts)`). -/
def extractBandScan : List String → Option String
  | [] => none
  | [_] => none
  | p :: next :: rest =>
    if p = "SR" ∨ p = "ST" ∨ p = "QA" then
      some (p ++ "_" ++ ((splitOnChar '.' next).headD ""))
    else extractBandScan (next :: rest)

/-- `_extract_band_name`: band from the filename tokens, else `MTL` when the
uppercased filename contains `MTL`, else nothing. -/
def extract_band_name (filename : String) : Option String :=
  match extractBandScan (splitOnChar '_' filename) with
  | some band => some band
  | none => if pyIn "MTL" (strUpper filename) then some "MTL" else none

/-! ## MTL metadata (src/etl/mtl_parser.py) -/

/-- The two text grammars the MTL reader distinguishes. -/
inductive MTLFormat where
  | txt
  | xml
  deriving DecidableEq, Repr

/-- `MTLParser._detect_format` (mtl_parser.py:86-110).  Inputs: the file
suffix (e.g. `".txt"`) and the file's lines (`f.readline()` reads the first
line, possibly blank). `ValueError` is the `.error` case. -/
def detect_format (suffix : String) (lines : List String) : Except String MTLFormat :=
  let s := strLower suffix
  if s = ".txt" then .ok .txt
  else if s = ".xml" then .ok .xml
  else
    let firstLine := pyStrip (lines.headD "")
    if startsWithL firstLine "GROUP" ∨ pyIn "=" firstLine then .ok .txt
    else if startsWithL firstLine "<?xml" ∨ startsWithL firstLine "<" then .ok .xml
    else .error "Unknown MTL format"

/-- Values that `MTLParser._convert_value` can produce: booleans, integers,
floats (kept as the exact decimal `mant / 10 ^ exp` they are written as —
the pipeline never computes with them), timestamps (abstracted to their
calendar fields) and strings; `noneV` is Python `None` (empty input
value). -/
inductive MTLValue where
  | boolV (b : Bool)
  | intV (n : Int)
  | numV (mant : Int) (exp : Nat)
  | dateV (y m d : Nat)
  | strV (s : String)
  | noneV
  deriving DecidableEq, Repr

/-- Python truthiness of an `MTLValue` (`0`, `0.0`, `""`, `False`, `None`
are falsy; a datetime is always truthy). -/
def pyTruthyV : MTLValue → Bool
  | .boolV b => b
  | .intV n => n ≠ 0
  | .numV mant _ => mant ≠ 0
  | .dateV _ _ _ => true
  | .strV s => s ≠ ""
  | .noneV => false

/-- Truthiness of an optional value (a missing key behaves like `None`). -/
def optTruthyV : Option MTLValue → Bool
  | none => false
  | some v => pyTruthyV v

/-- A parsed metadata map: namespaced key → value, as produced by
`MTLParser.parse`. -/
abbrev Metadata := List (String × MTLValue)

/-- `get_nested` inside `get_scene_metadata` (mtl_parser.py:235-239): first
present key of the alias chain wins. -/
def get_nested (metadata : Metadata) (keyVariants : List String) : Option MTLValue :=
  match keyVariants with
  | [] => none
  | k :: rest =>
    match metadata.lookup k with
    | some v => some v
    | none => get_nested metadata rest

/-- `MTLParser._infer_dataset_name` (mtl_parser.py:376-399).  A missing or
falsy spacecraft id gives `"unknown"`; otherwise substring tests on the
uppercased id.  (A non-string truthy spacecraft id would raise at `.upper()`
in Python; such values do not occur and are mapped to `"unknown"` here.) -/
def infer_dataset_name (spacecraftId : Option MTLValue) : String :=
  match spacecraftId with
  | some (.strV s) =>
    if s = "" then "unknown"
    else
      let u := strUpper s
      if pyIn "LANDSAT_8" u ∨ pyIn "LANDSAT_9" u then "landsat_ot_c2_l2"
      else if pyIn "LANDSAT_7" u then "landsat_etm_c2_l2"
      else if pyIn "LANDSAT_4" u ∨ pyIn "LANDSAT_5" u then "landsat_tm_c2_l2"
      else "unknown"
  | _ => "unknown"

/-- The scene record built by `MTLParser.get_scene_metadata`
(mtl_parser.py:360-374).  The WKT footprint string is abstracted to its ring
of `(lon, lat)` coordinate pairs, and the zero-padded `path/row` string to
the pair of resolved values. -/
structure SceneMeta where
  entity_id : Option MTLValue
  display_id : Option MTLValue
  dataset_name : String
  sensor : Option MTLValue
  satellite : Option MTLValue
  acquisition_date : Option MTLValue
  path_row : Option (MTLValue × MTLValue)
  cloud_cover : Option MTLValue
  sun_azimuth : Option MTLValue
  sun_elevation : Option MTLValue
  processing_level : Option MTLValue
  footprint : Option (List (MTLValue × MTLValue))
  deriving DecidableEq, Repr

/-- Corner lookups, with the exact alias chains of mtl_parser.py:308-339. -/
def corner_ul_lat (m : Metadata) : Option MTLValue :=
  get_nested m ["PROJECTION_ATTRIBUTES.CORNER_UL_LAT_PRODUCT", "PRODUCT_METADATA.CORNER_UL_LAT_PRODUCT"]

def corner_ul_lon (m : Metadata) : Option MTLValue :=
  get_nested m ["PROJECTION_ATTRIBUTES.CORNER_UL_LON_PRODUCT", "PRODUCT_METADATA.CORNER_UL_LON_PRODUCT"]

def corner_ur_lat (m : Metadata) : Option MTLValue :=
  get_nested m ["PROJECTION_ATTRIBUTES.CORNER_UR_LAT_PRODUCT", "PRODUCT_METADATA.CORNER_UR_LAT_PRODUCT"]

def corner_ur_lon (m : Metadata) : Option MTLValue :=
  get_nested m ["PROJECTION_ATTRIBUTES.CORNER_UR_LON_PRODUCT", "PRODUCT_METADATA.CORNER_UR_LON_PRODUCT"]

def corner_lr_lat (m : Metadata) : Option MTLValue :=
  get_nested m ["PROJECTION_ATTRIBUTES.CORNER_LR_LAT_PRODUCT", "PRODUCT_METADATA.CORNER_LR_LAT_PRODUCT"]

def corner_lr_lon (m : Metadata) : Option MTLValue :=
  get_nested m ["PROJECTION_ATTRIBUTES.CORNER_LR_LON_PRODUCT", "PRODUCT_METADATA.CORNER_LR_LON_PRODUCT"]

def corner_ll_lat (m : Metadata) : Option MTLValue :=
  get_nested m ["PROJECTION_ATTRIBUTES.CORNER_LL_LAT_PRODUCT", "PRODUCT_METADATA.CORNER_LL_LAT_PRODUCT"]

def corner_ll_lon (m : Metadata) : Option MTLValue :=
  get_nested m ["PROJECTION_ATTRIBUTES.CORNER_LL_LON_PRODUCT", "PRODUCT_METADATA.CORNER_LL_LON_PRODUCT"]

/-- `MTLParser.get_scene_metadata` (mtl_parser.py:225-374) over an already
parsed metadata map.  The footprint guard is Python's
`all([corner_ul_lon, corner_ul_lat, ..., corner_ll_lat])` — truthiness, in
the source's order — and the ring mirrors the WKT
`POLYGON((ul, ur, lr, ll, ul))` built at mtl_parser.py:344-352. -/
def get_scene_metadata (m : Metadata) : SceneMeta :=
  let entity_id := get_nested m
    ["PRODUCT_CONTENTS.LANDSAT_PRODUCT_ID", "PRODUCT_METADATA.LANDSAT_PRODUCT_ID",
     "L1_METADATA_FILE.METADATA_FILE_INFO.LANDSAT_PRODUCT_ID"]
  let display_id := get_nested m
    ["PRODUCT_CONTENTS.LANDSAT_SCENE_ID", "PRODUCT_METADATA.LANDSAT_SCENE_ID",
     "L1_METADATA_FILE.METADATA_FILE_INFO.LANDSAT_SCENE_ID"]
  let date_acquired := get_nested m
    ["IMAGE_ATTRIBUTES.DATE_ACQUIRED", "PRODUCT_METADATA.DATE_ACQUIRED",
     "L1_METADATA_FILE.PRODUCT_METADATA.DATE_ACQUIRED"]
  let cloud_cover := get_nested m
    ["IMAGE_ATTRIBUTES.CLOUD_COVER", "IMAGE_ATTRIBUTES.CLOUD_COVER_LAND",
     "PRODUCT_METADATA.CLOUD_COVER", "L1_METADATA_FILE.IMAGE_ATTRIBUTES.CLOUD_COVER"]
  let sun_azimuth := get_nested m
    ["IMAGE_ATTRIBUTES.SUN_AZIMUTH", "PRODUCT_METADATA.SUN_AZIMUTH",
     "L1_METADATA_FILE.IMAGE_ATTRIBUTES.SUN_AZIMUTH"]
  let sun_elevation := get_nested m
    ["IMAGE_ATTRIBUTES.SUN_ELEVATION", "PRODUCT_METADATA.SUN_ELEVATION",
     "L1_METADATA_FILE.IMAGE_ATTRIBUTES.SUN_ELEVATION"]
  let wrs_path := get_nested m
    ["IMAGE_ATTRIBUTES.WRS_PATH", "PRODUCT_METADATA.WRS_PATH",
     "L1_METADATA_FILE.PRODUCT_METADATA.WRS_PATH"]
  let wrs_row := get_nested m
    ["IMAGE_ATTRIBUTES.WRS_ROW", "PRODUCT_METADATA.WRS_ROW",
     "L1_METADATA_FILE.PRODUCT_METADATA.WRS_ROW"]
  let processing_level := get_nested m
    ["PRODUCT_CONTENTS.PROCESSING_LEVEL", "PRODUCT_METADATA.PROCESSING_LEVEL",
     "L1_METADATA_FILE.PRODUCT_METADATA.DATA_TYPE"]
  let spacecraft_id := get_nested m
    ["IMAGE_ATTRIBUTES.SPACECRAFT_ID", "PRODUCT_METADATA.SPACECRAFT_ID",
     "L1_METADATA_FILE.PRODUCT_METADATA.SPACECRAFT_ID"]
  let sensor_id := get_nested m
    ["IMAGE_ATTRIBUTES.SENSOR_ID", "PRODUCT_METADATA.SENSOR_ID",
     "L1_METADATA_FILE.PRODUCT_METADATA.SENSOR_ID"]
  let ulLat := corner_ul_lat m
  let ulLon := corner_ul_lon m
  let urLat := corner_ur_lat m
  let urLon := corner_ur_lon m
  let lrLat := corner_lr_lat m
  let lrLon := corner_lr_lon m
  let llLat := corner_ll_lat m
  let llLon := corner_ll_lon m
  let footprint :=
    if optTruthyV ulLon ∧ optTruthyV ulLat ∧ optTruthyV urLon ∧ optTruthyV urLat ∧
       optTruthyV lrLon ∧ optTruthyV lrLat ∧ optTruthyV llLon ∧ optTruthyV llLat then
      some [(ulLon.getD .noneV, ulLat.getD .noneV),
            (urLon.getD .noneV, urLat.getD .noneV),
            (lrLon.getD .noneV, lrLat.getD .noneV),
            (llLon.getD .noneV, llLat.getD .noneV),
            (ulLon.getD .noneV, ulLat.getD .noneV)]
    else none
  let path_row :=
    if optTruthyV wrs_path ∧ optTruthyV wrs_row then
      some (wrs_path.getD .noneV, wrs_row.getD .noneV)
    else none
  { entity_id := entity_id
    display_id := if optTruthyV display_id then display_id else entity_id
    dataset_name := infer_dataset_name spacecraft_id
    sensor := sensor_id
    satellite := spacecraft_id
    acquisition_date := date_acquired
    path_row := path_row
    cloud_cover := cloud_cover
    sun_azimuth := sun_azimuth
    sun_elevation := sun_elevation
    processing_level := processing_level
    footprint := footprint }

/-- `MTLParser._set_mock_metadata` (mtl_parser.py:60-84): the literal
dictionary installed in dry-run mode. -/
def mock_metadata : Metadata :=
  [("PRODUCT_CONTENTS.LANDSAT_PRODUCT_ID", .strV "LC90040532026030LGN00_DRYRUN"),
   ("PRODUCT_CONTENTS.LANDSAT_SCENE_ID", .strV "LC90040532026030LGN00_DRYRUN"),
   ("IMAGE_ATTRIBUTES.DATE_ACQUIRED", .dateV 2026 1 15),
   ("IMAGE_ATTRIBUTES.CLOUD_COVER", .numV 950 1),
   ("IMAGE_ATTRIBUTES.SUN_AZIMUTH", .numV 1500 1),
   ("IMAGE_ATTRIBUTES.SUN_ELEVATION", .numV 600 1),
   ("IMAGE_ATTRIBUTES.WRS_PATH", .intV 4),
   ("IMAGE_ATTRIBUTES.WRS_ROW", .intV 53),
   ("PRODUCT_CONTENTS.PROCESSING_LEVEL", .strV "L2SP"),
   ("IMAGE_ATTRIBUTES.SPACECRAFT_ID", .strV "LANDSAT_9"),
   ("IMAGE_ATTRIBUTES.SENSOR_ID", .strV "OLI_TIRS"),
   ("PROJECTION_ATTRIBUTES.CORNER_UL_LAT_PRODUCT", .numV 10334375 6),
   ("PROJECTION_ATTRIBUTES.CORNER_UL_LON_PRODUCT", .numV (-6800742) 5),
   ("PROJECTION_ATTRIBUTES.CORNER_UR_LAT_PRODUCT", .numV 10332388 6),
   ("PROJECTION_ATTRIBUTES.CORNER_UR_LON_PRODUCT", .numV (-67494426) 6),
   ("PROJECTION_ATTRIBUTES.CORNER_LR_LAT_PRODUCT", .numV 9991131 6),
   ("PROJECTION_ATTRIBUTES.CORNER_LR_LON_PRODUCT", .numV (-67496022) 6),
   ("PROJECTION_ATTRIBUTES.CORNER_LL_LAT_PRODUCT", .numV 9993051 6),
   ("PROJECTION_ATTRIBUTES.CORNER_LL_LON_PRODUCT", .numV (-68008472) 6)]

/-! ## Python exceptions and the filesystem model -/

/-- The Python exceptions the embedded code can raise. -/
inductive PyErr where
  | valueError (msg : String)
  | typeError (msg : String)
  | runtimeError (msg : String)
  | attributeError (msg : String)
  | osError (msg : String)
  | jsonDecodeError
  deriving DecidableEq, Repr

def pyErrMsg : PyErr → String
  | .valueError m => m
  | .typeError m => m
  | .runtimeError m => m
  | .attributeError m => m
  | .osError m => m
  | .jsonDecodeError => "JSONDecodeError"

/-- A filesystem path as its list of segments. -/
abbrev PathP := List String

/-- File contents are abstracted to their byte size (the orchestration only
inspects existence and `st_size`). -/
structure FileData where
  sizeBytes : Nat
  deriving DecidableEq, Repr

structure FS where
  dirs : List PathP
  files : List (PathP × FileData)
  deriving DecidableEq, Repr

def fsAddDir (fs : FS) (p : PathP) : FS :=
  if p ∈ fs.dirs then fs else { fs with dirs := fs.dirs ++ [p] }

/-- `Path.mkdir(parents=True, exist_ok=True)`: create the path and every
ancestor that is missing. -/
def mkdirParents (fs : FS) (p : PathP) : FS :=
  (List.range p.length).foldl (fun acc i => fsAddDir acc (p.take (i + 1))) fs

def fsFileAt (fs : FS) (p : PathP) : Option FileData :=
  fs.files.lookup p

def fsWriteFile (fs : FS) (p : PathP) (d : FileData) : FS :=
  { fs with files := (fs.files.filter fun e => e.1 ≠ p) ++ [(p, d)] }

/-- `Path.unlink()`. -/
def fsRemoveFile (fs : FS) (p : PathP) : FS :=
  { fs with files := fs.files.filter fun e => e.1 ≠ p }

/-- `shutil.rmtree(p, ignore_errors=True)`: drop the directory, everything
below it, and every file below it. -/
def rmtree (fs : FS) (p : PathP) : FS :=
  { dirs := fs.dirs.filter fun d => ¬ p.isPrefixOf d
    files := fs.files.filter fun e => ¬ p.isPrefixOf e.1 }

/-! ## M2M client (src/etl/m2m_client.py) -/

/-- The JSON envelope of the M2M API: `{errorCode, errorMessage, data}`. -/
structure M2MEnvelope (α : Type) where
  errorCode : Option String
  errorMessage : String
  data : Option α
  deriving DecidableEq, Repr

/-- Outcome of one HTTP exchange, as seen by `_send_request`
(m2m_client.py:171-225): a decoded envelope, a `requests.RequestException`
(network error or a non-2xx status after the adapter's retries — caught and
logged), or an exception that propagates (e.g. a JSON decode error). -/
inductive HttpOutcome (α : Type) where
  | response (env : M2MEnvelope α)
  | transportError
  | raised (e : PyErr)
  deriving DecidableEq, Repr

/-- Truthiness of `data.get('errorCode')`. -/
def errorCodeTruthy : Option String → Bool
  | none => false
  | some s => s ≠ ""

/-- `M2MClient._send_request` with `return_full_response=False` and
`exit_on_error=False`: an application error code or a transport error yields
`None`; otherwise the `data` member. -/
def send_request (o : HttpOutcome α) : Except PyErr (Option α) :=
  match o with
  | .response env => if errorCodeTruthy env.errorCode then .ok none else .ok env.data
  | .transportError => .ok none
  | .raised e => .error e

/-- `M2MClient._send_request` with `return_full_response=True`: the whole
envelope when no application error code is present. -/
def send_request_full (o : HttpOutcome α) : Except PyErr (Option (M2MEnvelope α)) :=
  match o with
  | .response env => if errorCodeTruthy env.errorCode then .ok none else .ok (some env)
  | .transportError => .ok none
  | .raised e => .error e

/-- One scene-search result (only the `entityId` member is consumed). -/
structure SearchScene where
  entityId : String
  deriving DecidableEq, Repr

/-- Payload of `scene-search`: `{'results': [...]}`. -/
structure SearchResults where
  results : List SearchScene
  deriving DecidableEq, Repr

/-- `M2MClient.search_scenes` (m2m_client.py:227-272): `result.get('results',
[])` when the envelope yielded data, else `[]`. -/
def search_scenes (o : HttpOutcome SearchResults) : Except PyErr (List SearchScene) :=
  match send_request o with
  | .error e => .error e
  | .ok none => .ok []
  | .ok (some r) => .ok r.results

/-- `M2MClient.add_scenes_to_list` (m2m_client.py:274-307): `scene-list-add`
returns an integer count; a falsy result (error, transport failure, or a
zero count) becomes `0`. -/
def add_scenes_to_list (o : HttpOutcome Int) (entityIds : List String) : Except PyErr Int :=
  match send_request o with
  | .error e => .error e
  | .ok none => .ok 0
  | .ok (some n) => .ok (if n ≠ 0 then n else 0)

/-- One secondary download inside a `download-options` product. -/
structure SecondaryDownload where
  displayId : String
  entityId : String
  id : String
  deriving DecidableEq, Repr

/-- One `download-options` product. -/
structure Product where
  entityId : String
  secondaryDownloads : List SecondaryDownload
  deriving DecidableEq, Repr

/-- `{'entityId': ..., 'productId': ...}` download request entry. -/
structure DownloadCandidate where
  entityId : String
  productId : String
  deriving DecidableEq, Repr

/-- `M2MClient.get_download_options` (m2m_client.py:309-341): a falsy result
(error, transport failure, empty list) becomes `[]`. -/
def get_download_options (o : HttpOutcome (List Product)) : Except PyErr (List Product) :=
  match send_request o with
  | .error e => .error e
  | .ok none => .ok []
  | .ok (some l) => .ok (if l.isEmpty then [] else l)

/-- `M2MClient.filter_bands` (m2m_client.py:343-374): the accumulating loop
over `products`; a product with truthy `secondaryDownloads` contributes
every secondary download whose `displayId` contains some requested band name
as a substring (`any(band in display_id for band in band_names)`). -/
def filter_bands : List Product → List String → List DownloadCandidate
  | [], _ => []
  | p :: rest, band_names =>
    (if p.secondaryDownloads.isEmpty then []
     else
       p.secondaryDownloads.filterMap fun sd =>
         if band_names.any (fun band => pyIn band sd.displayId) then
           some { entityId := sd.entityId, productId := sd.id }
         else none)
    ++ filter_bands rest band_names

/-- One entry of `availableDownloads` / `preparingDownloads` (only `url` is
consumed). -/
structure DownloadItem where
  url : String
  deriving DecidableEq, Repr

/-- Payload of `download-request`. -/
structure DownloadRequestData where
  availableDownloads : List DownloadItem
  preparingDownloads : List DownloadItem
  deriving DecidableEq, Repr

/-- The dry-run mock of `request_downloads` (m2m_client.py:401-410): up to
two dummy URLs when the request list was non-empty. -/
def mockAvailableDownloads (downloads : List DownloadCandidate) : List DownloadItem :=
  (List.range (min downloads.length 2)).map fun i =>
    { url := "http://mock-download.com/dryrun_" ++ toString i ++ ".tif" }

/-- `M2MClient.request_downloads` (m2m_client.py:376-420): in dry-run a mock
response; otherwise exactly `_send_request`'s result (which is `None` when
the envelope carried an application error code). -/
def request_downloads (dryRun : Bool) (o : HttpOutcome DownloadRequestData)
    (downloads : List DownloadCandidate) : Except PyErr (Option DownloadRequestData) :=
  if dryRun then
    .ok (some { availableDownloads := mockAvailableDownloads downloads, preparingDownloads := [] })
  else send_request o

/-- `M2MClient.delete_list` (m2m_client.py:422-448): dry-run returns `True`
without a request; otherwise `True` iff the full-response send succeeded. -/
def delete_list (dryRun : Bool) (o : HttpOutcome Unit) : Except PyErr Bool :=
  if dryRun then .ok true
  else
    match send_request_full o with
    | .error e => .error e
    | .ok (some _) => .ok true
    | .ok none => .ok false

/-! ## Download manager (`M2MClient.download_file`, m2m_client.py:450-556) -/

/-- The Content-Disposition regex `filename="?([^"]+)"?` (m2m_client.py:497):
scan left to right for the literal `filename=`, optionally consume one
quote, and capture a non-empty run of non-quote characters; positions where
the capture would be empty do not match and scanning continues. -/
def matchDisposition : List Char → Option (List Char)
  | [] => none
  | c :: tail =>
    if "filename=".data.isPrefixOf (c :: tail) then
      let rest := (c :: tail).drop 9
      let rest2 := match rest with
        | '"' :: r => r
        | r => r
      let cap := rest2.takeWhile fun ch => ch ≠ '"'
      if cap ≠ [] then some cap else matchDisposition tail
    else matchDisposition tail

def parseDispositionName (hdr : String) : Option String :=
  (matchDisposition hdr.data).map fun cs => String.mk cs

def hexVal (c : Char) : Option Nat :=
  if '0' ≤ c ∧ c ≤ '9' then some (c.toNat - '0'.toNat)
  else if 'a' ≤ c ∧ c ≤ 'f' then some (c.toNat - 'a'.toNat + 10)
  else if 'A' ≤ c ∧ c ≤ 'F' then some (c.toNat - 'A'.toNat + 10)
  else none

/-- `urllib.parse.unquote`: decode `%XX` escapes (restricted to single-byte
code points, which covers the filenames at issue). -/
def unquoteChars : List Char → List Char
  | [] => []
  | '%' :: a :: b :: rest =>
    match hexVal a, hexVal b with
    | some x, some y => Char.ofNat (16 * x + y) :: unquoteChars rest
    | _, _ => '%' :: unquoteChars (a :: b :: rest)
  | c :: rest => c :: unquoteChars rest

/-- Drop everything up to and including the first occurrence of `sep`;
`none` when `sep` does not occur. -/
def dropThroughSub (cs sep : List Char) : Option (List Char) :=
  match cs with
  | [] => if sep = [] then some [] else none
  | _ :: tail =>
    if sep.isPrefixOf cs then some (cs.drop sep.length)
    else dropThroughSub tail sep

/-- `urlparse(url).path`: after `scheme://netloc`, the part from the first
`/` up to a query/fragment delimiter (or the whole string when there is no
`://`). -/
def urlPath (url : String) : String :=
  let cs := url.data
  let pathChars :=
    match dropThroughSub cs "://".data with
    | some rest => rest.dropWhile fun c => c ≠ '/'
    | none => cs
  String.mk (pathChars.takeWhile fun c => c ≠ '?' ∧ c ≠ '#')

/-- `Path(unquote(parsed_url.path)).name`: last non-empty `/`-separated
segment (`Path` normalises duplicate and trailing slashes). -/
def urlBasename (url : String) : String :=
  let decoded := String.mk (unquoteChars (urlPath url).data)
  ((splitOnChar '/' decoded).filter fun s => s ≠ "").getLastD ""

/-- The filename resolution chain of `download_file` (m2m_client.py:490-510):
Content-Disposition capture, else URL path basename, else the generated
`unknown_file_<entityId>_<timestamp>.dat`. -/
def derived_filename (contentDisposition : Option String) (url : String)
    (entityId : String) (now : Nat) : String :=
  let fromHeader :=
    match contentDisposition with
    | some hdr => parseDispositionName hdr
    | none => none
  let filename :=
    match fromHeader with
    | some f => f
    | none => urlBasename url
  if filename = "" ∨ filename = "download" then
    "unknown_file_" ++ entityId ++ "_" ++ toString now ++ ".dat"
  else filename

/-- One HTTP file-download exchange as `download_file` observes it.
`statusOk = false` stands for `raise_for_status()` raising (a non-2xx status
after the session adapter's retries). -/
structure HttpFileResponse where
  statusOk : Bool
  contentDisposition : Option String
  contentType : String
  body : FileData
  deriving DecidableEq, Repr

/-- The per-file result tuple
`(entity_id, success, filepath, error, url, duration)`. -/
structure DLRecord where
  entityId : String
  success : Bool
  filepath : Option PathP
  error : Option String
  url : String
  duration : Option Nat
  deriving DecidableEq, Repr

/-- Wall-clock durations are abstracted: `someDuration` stands for any
measured positive duration (including the dry-run's hash-derived simulated
duration). -/
def someDuration : Nat := 1

/-- `M2MClient.download_file` (m2m_client.py:450-556).  Dry-run: no request
and no disk write, a success tuple with a dummy `<entityPart>_SR_B4.tif`
path.  Otherwise: derive the filename; a JSON content-type deletes any file
already at that path and fails without writing; a zero-byte body is written,
detected, deleted and fails; any exception (here: `raise_for_status`) is
caught and converted to a failure tuple. -/
def download_file (dryRun : Bool) (resp : HttpFileResponse) (url : String)
    (output_dir : PathP) (entity_id : String) (now : Nat) (fs : FS) : DLRecord × FS :=
  if dryRun then
    let entityPart := if pyIn "_" entity_id then (splitOnChar '_' entity_id).headD "" else entity_id
    let dummyFilename := entityPart ++ "_SR_B4.tif"
    ({ entityId := entity_id, success := true, filepath := some (output_dir ++ [dummyFilename]),
       error := none, url := url, duration := some someDuration }, fs)
  else if ¬ resp.statusOk then
    ({ entityId := entity_id, success := false, filepath := none,
       error := some ("Download failed for " ++ entity_id ++ ": HTTPError"),
       url := url, duration := some someDuration }, fs)
  else
    let filename := derived_filename resp.contentDisposition url entity_id now
    let filepath := output_dir ++ [filename]
    if pyIn "application/json" (strLower resp.contentType) then
      let fs' := if (fsFileAt fs filepath).isSome then fsRemoveFile fs filepath else fs
      ({ entityId := entity_id, success := false, filepath := none,
         error := some ("Download failed for " ++ entity_id ++
           ": Unexpected JSON response (Content-Type: " ++ strLower resp.contentType ++
           "). Likely invalid/expired signature or file not found."),
         url := url, duration := none }, fs')
    else
      let fs' := fsWriteFile fs filepath resp.body
      if resp.body.sizeBytes = 0 then
        ({ entityId := entity_id, success := false, filepath := none,
           error := some ("Downloaded file is empty"), url := url, duration := none },
         fsRemoveFile fs' filepath)
      else
        ({ entityId := entity_id, success := true, filepath := some filepath,
           error := none, url := url, duration := some someDuration }, fs')

/-- The worker loop of `download_files_parallel`.  Completion order of the
thread pool is unspecified in the source; the model fixes submission order
(no claim below depends on ordering). -/
def downloadLoop (dryRun : Bool) (responses : Nat → HttpFileResponse) (output_dir : PathP)
    (now : Nat) : List (String × String) → Nat → FS → List DLRecord × FS
  | [], _, fs => ([], fs)
  | (url, eid) :: rest, i, fs =>
    let (rec1, fs1) := download_file dryRun (responses i) url output_dir eid now fs
    let (recs, fs2) := downloadLoop dryRun responses output_dir now rest (i + 1) fs1
    (rec1 :: recs, fs2)

/-- `M2MClient.download_files_parallel` (m2m_client.py:558-606): creates the
output directory (`output_dir.mkdir(parents=True, exist_ok=True)` — also in
dry-run) and fetches each item, one result tuple per input. -/
def download_files_parallel (dryRun : Bool) (responses : Nat → HttpFileResponse)
    (download_urls : List (String × String)) (output_dir : PathP) (now : Nat) (fs : FS) :
    List DLRecord × FS :=
  let fs0 := mkdirParents fs output_dir
  downloadLoop dryRun responses output_dir now download_urls 0 fs0

/-! ## Orchestrator state (src/etl/bronze_ingestion.py) -/

/-- One row of `bronze.download_log`. -/
structure LogEntry where
  entityId : String
  bandName : String
  ok : Bool
  errorMessage : Option String
  url : String
  deriving DecidableEq, Repr

/-- The observable world: local filesystem, the three database tables the
orchestrator writes, and an instrumentation trace of the remote calls it
issues (used to state the resource-lifecycle claims). -/
structure World where
  fs : FS
  dbScenes : List String
  dbLog : List LogEntry
  dbBands : List (Int × String × Nat)
  addToListCalls : List (String × List String)
  deleteListCalls : List String
  requestDownloadCalls : List String
  processSceneCalls : List String
  deriving DecidableEq, Repr

/-- Per-scene oracle: the remote and database responses one
`_process_scene` execution observes.  `mtlParse` is the raw-text → map step
of `MTLParser` on the found metadata file (its projection,
`get_scene_metadata`, is applied by the model itself); `insertDb` and
`sceneYear` are the database round-trips; `bandIngest i` is the
`raster2pgsql | psql` outcome for the i-th downloaded band. -/
structure SceneEnv where
  requestOutcome : HttpOutcome DownloadRequestData
  fileResponses : Nat → HttpFileResponse
  mtlParse : Except PyErr Metadata
  insertDb : Except PyErr Int
  sceneYear : Except PyErr Int
  bandIngest : Nat → Except PyErr Unit

/-- Per-dataset oracle: the four remote exchanges `_process_dataset` makes
plus the per-scene oracles. -/
structure DatasetEnv where
  searchOutcome : HttpOutcome SearchResults
  addOutcome : HttpOutcome Int
  optionsOutcome : HttpOutcome (List Product)
  deleteOutcome : HttpOutcome Unit
  sceneEnvs : String → SceneEnv

/-- The statistics dictionary of `run`/`_process_dataset`. -/
structure RunStats where
  total_scenes : Nat
  total_bands : Nat
  successful_scenes : Nat
  failed_scenes : Nat
  errors : List String
  deriving DecidableEq, Repr

def zeroStats : RunStats := ⟨0, 0, 0, 0, []⟩

/-- `BronzeIngestion._log_download_success` (bronze_ingestion.py:689-715).
In dry-run only a log line is emitted, but its f-string formats the duration
with `:.2f`, which raises `TypeError` on `None`.  Otherwise the file is
`stat`-ed for its size and a success row appended to
`bronze.download_log`. -/
def log_download_success (dryRun : Bool) (eid band : String) (tif : PathP) (url : String)
    (dur : Option Nat) (w : World) : Except PyErr Unit × World :=
  if dryRun then
    match dur with
    | none => (.error (.typeError "unsupported format string passed to NoneType.__format__"), w)
    | some _ => (.ok (), w)
  else
    match fsFileAt w.fs tif with
    | none => (.error (.osError "stat"), w)
    | some _ => (.ok (), { w with dbLog := w.dbLog ++ [⟨eid, band, true, none, url⟩] })

/-- `BronzeIngestion._log_download_failure` (bronze_ingestion.py:717-740).
The dry-run log line also formats the duration with `:.2f` and therefore
raises `TypeError` when the duration is `None`. -/
def log_download_failure (dryRun : Bool) (eid band url : String) (dur : Option Nat)
    (msg : String) (w : World) : Except PyErr Unit × World :=
  if dryRun then
    match dur with
    | none => (.error (.typeError "unsupported format string passed to NoneType.__format__"), w)
    | some _ => (.ok (), w)
  else (.ok (), { w with dbLog := w.dbLog ++ [⟨eid, band, false, some msg, url⟩] })

/-- `Path.suffix` (lowered later by the caller): the final extension of the
last path component, `""` when there is none. -/
def fileSuffix (name : String) : String :=
  match splitOnChar '.' name with
  | [] => ""
  | [_] => ""
  | ps => if startsWithL name "." ∧ ps.length = 2 then "" else "." ++ ps.getLastD ""

/-- `BronzeIngestion._find_mtl_file` (bronze_ingestion.py:381-401): dry-run
fabricates a dummy path; otherwise the globs `*MTL.txt`, `*MTL.xml`,
`*_MTL*` are tried in order over the files directly inside the scene
directory. -/
def find_mtl_file (dryRun : Bool) (fs : FS) (scene_dir : PathP) (entity_id : String) :
    Option PathP :=
  if dryRun then some (scene_dir ++ [entity_id ++ "_MTL.txt"])
  else
    let inDir := fs.files.filterMap fun e =>
      if e.1.length = scene_dir.length + 1 ∧ scene_dir.isPrefixOf e.1 then some e.1 else none
    match inDir.filter (fun p => endsWithL (p.getLastD "") "MTL.txt") with
    | f :: _ => some f
    | [] =>
      match inDir.filter (fun p => endsWithL (p.getLastD "") "MTL.xml") with
      | f :: _ => some f
      | [] =>
        match inDir.filter (fun p => pyIn "_MTL" (p.getLastD "")) with
        | f :: _ => some f
        | [] => none

/-- Rendering of the scene's entity identifier for the database key (it is a
string in every metadata file; other shapes are rendered opaquely). -/
def mtlKeyText : Option MTLValue → String
  | some (.strV s) => s
  | _ => ""

/-- `BronzeIngestion._insert_scene_metadata` (bronze_ingestion.py:403-457).
Dry-run projects the parser's mock metadata and returns the dummy id `0`
without touching the database.  Otherwise the parsed map is projected, the
dataset name overridden, and the upsert executed: `ON CONFLICT (entity_id)
DO UPDATE` only refreshes cloud/sun fields, so the set of stored entity ids
gains the key only when it is new. -/
def insert_scene_metadata (dryRun : Bool) (env : SceneEnv) (dataset_name : String) (w : World) :
    Except PyErr Int × World :=
  if dryRun then
    let _meta := { get_scene_metadata mock_metadata with dataset_name := dataset_name }
    (.ok 0, w)
  else
    match env.mtlParse with
    | .error e => (.error e, w)
    | .ok md =>
      let meta := { get_scene_metadata md with dataset_name := dataset_name }
      match env.insertDb with
      | .error e => (.error e, w)
      | .ok scene_id =>
        let key := mtlKeyText meta.entity_id
        let dbScenes' := if strMem key w.dbScenes then w.dbScenes else w.dbScenes ++ [key]
        (.ok scene_id, { w with dbScenes := dbScenes' })

/-- The per-band loop of `_ingest_bands_to_postgis`
(bronze_ingestion.py:483-505): metadata files are skipped; a failing
`raster2pgsql | psql` ingest is caught and logged, the loop continues. -/
def ingestLoop (env : SceneEnv) (scene_id : Int) (year : Nat) :
    List (PathP × String) → Nat → Nat → World → Nat × World
  | [], _, count, w => (count, w)
  | (p, band) :: rest, i, count, w =>
    if strMem (strLower (fileSuffix (p.getLastD ""))) [".txt", ".xml"] ∨ band = "MTL" then
      ingestLoop env scene_id year rest (i + 1) count w
    else
      match env.bandIngest i with
      | .ok _ =>
        ingestLoop env scene_id year rest (i + 1) (count + 1)
          { w with dbBands := w.dbBands ++ [(scene_id, band, year)] }
      | .error _ => ingestLoop env scene_id year rest (i + 1) count w

/-- `BronzeIngestion._ingest_bands_to_postgis` (bronze_ingestion.py:459-505).
Dry-run reports all bands as ingested without touching anything.  Otherwise
`_get_scene_year` is queried first (its failure propagates), then each band
is ingested with per-band error containment. -/
def ingest_bands_to_postgis (dryRun : Bool) (env : SceneEnv) (tifs : List (PathP × String))
    (scene_id : Int) (w : World) : Except PyErr Nat × World :=
  if tifs.isEmpty then (.ok 0, w)
  else if dryRun then (.ok tifs.length, w)
  else
    match env.sceneYear with
    | .error e => (.error e, w)
    | .ok year =>
      let r := ingestLoop env scene_id year.toNat tifs 0 0 w
      (.ok r.1, r.2)

/-- The per-result loop of `_process_scene` (bronze_ingestion.py:316-328):
classify each download tuple, log it, and collect the successful files. -/
def sceneResultsLoop (dryRun : Bool) :
    List DLRecord → List (PathP × String) → Nat → World →
    Except PyErr (List (PathP × String) × Nat) × World
  | [], tifs, count, w => (.ok (tifs, count), w)
  | r :: rest, tifs, count, w =>
    let band_name := match r.filepath with
      | some p => extract_band_name (p.getLastD "")
      | none => none
    if r.success ∧ r.filepath.isSome ∧ band_name.isSome then
      let p := r.filepath.getD []
      let band := band_name.getD ""
      let ls := log_download_success dryRun r.entityId band p r.url r.duration w
      match ls.1 with
      | .error e => (.error e, ls.2)
      | .ok _ => sceneResultsLoop dryRun rest (tifs ++ [(p, band)]) (count + 1) ls.2
    else
      let log_band := band_name.getD "UNKNOWN_BAND"
      let log_msg := r.error.getD "Unknown download error"
      let lf := log_download_failure dryRun r.entityId log_band r.url r.duration log_msg w
      match lf.1 with
      | .error e => (.error e, lf.2)
      | .ok _ => sceneResultsLoop dryRun rest tifs count lf.2

/-- `BronzeIngestion._process_scene` (bronze_ingestion.py:262-346).  Note:
the scene scratch directory is created unconditionally (line 300, also in
dry-run), and `shutil.rmtree` (line 342) is reached only on the success
path — there is no `try/finally` around the body. -/
def process_scene (dryRun : Bool) (cfg : DatasetsConfig) (tempDir : PathP) (env : SceneEnv)
    (entity_id : String) (products : List Product) (dataset_name : String) (now : Nat)
    (w : World) : Except PyErr Nat × World :=
  let w1 := { w with processSceneCalls := w.processSceneCalls ++ [entity_id] }
  let sensor := get_sensor_from_entity_id entity_id
  let required_bands := get_required_bands cfg sensor
  let scene_products := products.filter fun p => p.entityId = entity_id
  let downloads := filter_bands scene_products required_bands
  if downloads.isEmpty then
    (.error (.valueError ("No bands available for " ++ entity_id)), w1)
  else
    let w2 := { w1 with requestDownloadCalls := w1.requestDownloadCalls ++ [entity_id] }
    match request_downloads dryRun env.requestOutcome downloads with
    | .error e => (.error e, w2)
    | .ok none =>
      (.error (.attributeError "NoneType object has no attribute get"), w2)
    | .ok (some dr) =>
      let available := dr.availableDownloads
      if available.isEmpty then
        (.error (.valueError ("No downloads available for " ++ entity_id)), w2)
      else
        let scene_dir := tempDir ++ [entity_id]
        let w3 := { w2 with fs := mkdirParents w2.fs scene_dir }
        let download_urls := available.map fun item => (item.url, entity_id)
        let dlr := download_files_parallel dryRun env.fileResponses download_urls scene_dir now w3.fs
        let w4 := { w3 with fs := dlr.2 }
        let srl := sceneResultsLoop dryRun dlr.1 [] 0 w4
        match srl.1 with
        | .error e => (.error e, srl.2)
        | .ok tc =>
          let tifs := tc.1
          if tifs.isEmpty then
            (.error (.valueError ("No TIF files were successfully downloaded for " ++ entity_id ++
              ". Cannot proceed with ingestion.")), srl.2)
          else
            match find_mtl_file dryRun srl.2.fs scene_dir entity_id with
            | none => (.error (.valueError ("MTL file not found for " ++ entity_id)), srl.2)
            | some _mtl =>
              let ins := insert_scene_metadata dryRun env dataset_name srl.2
              match ins.1 with
              | .error e => (.error e, ins.2)
              | .ok scene_id =>
                let ing := ingest_bands_to_postgis dryRun env tifs scene_id ins.2
                match ing.1 with
                | .error e => (.error e, ing.2)
                | .ok bands_ingested =>
                  (.ok bands_ingested, { ing.2 with fs := rmtree ing.2.fs scene_dir })

/-- `_get_existing_entity_ids` (bronze_ingestion.py:667-687): an empty input
short-circuits; dry-run simulates "nothing exists"; otherwise the rows of
`bronze.landsat_scenes` whose `entity_id` is among the searched ids. -/
def get_existing_entity_ids (dryRun : Bool) (w : World) (entity_ids : List String) :
    List String :=
  if entity_ids.isEmpty then []
  else if dryRun then []
  else w.dbScenes.filter fun e => strMem e entity_ids

/-- `new_entity_ids` of `_process_dataset` (bronze_ingestion.py:222): the
searched ids not reported as existing. -/
def new_ids_for (dryRun : Bool) (w : World) (entity_ids : List String) : List String :=
  entity_ids.filter fun eid => ! strMem eid (get_existing_entity_ids dryRun w entity_ids)

/-- The `temp_<dataset>_<timestamp>` list id (bronze_ingestion.py:230). -/
def list_id_for (dataset_name nowStr : String) : String :=
  "temp_" ++ dataset_name ++ "_" ++ nowStr

/-- The per-scene loop of `_process_dataset` (bronze_ingestion.py:236-248):
each scene failure is caught, counted and logged via
`_log_download_failure(eid, "SCENE_PROCESSING_ERROR", "N/A", None, msg)`;
an exception raised by that logging call itself (the dry-run `TypeError` on
the `None` duration) propagates. -/
def scene_loop (dryRun : Bool) (cfg : DatasetsConfig) (tempDir : PathP)
    (envs : String → SceneEnv) (products : List Product) (dataset_name : String) (now : Nat) :
    List String → RunStats → World → Except PyErr RunStats × World
  | [], stats, w => (.ok stats, w)
  | eid :: rest, stats, w =>
    let ps := process_scene dryRun cfg tempDir (envs eid) eid products dataset_name now w
    match ps.1 with
    | .ok bands =>
      scene_loop dryRun cfg tempDir envs products dataset_name now rest
        { stats with total_bands := stats.total_bands + bands,
                     successful_scenes := stats.successful_scenes + 1 } ps.2
    | .error e =>
      let stats' :=
        { stats with
          failed_scenes := stats.failed_scenes + 1,
          errors := stats.errors ++ ["Failed to process scene " ++ eid ++ ": " ++ pyErrMsg e] }
      let lf := log_download_failure dryRun eid "SCENE_PROCESSING_ERROR" "N/A" none (pyErrMsg e) ps.2
      match lf.1 with
      | .ok _ => scene_loop dryRun cfg tempDir envs products dataset_name now rest stats' lf.2
      | .error e2 => (.error e2, lf.2)

/-- `BronzeIngestion._process_dataset` (bronze_ingestion.py:175-260).
Faithful to the source's control flow: `add_scenes_to_list` (line 231) and
`get_download_options` (line 233) run BEFORE the `try` block, so an
exception in either skips the `finally` that releases the list; the
`finally` itself (lines 249-258) only simulates the deletion in dry-run and
otherwise swallows any deletion failure. -/
def process_dataset (dryRun : Bool) (cfg : DatasetsConfig) (tempDir : PathP)
    (nowStr : String) (now : Nat) (denv : DatasetEnv) (dataset_name : String) (w : World) :
    Except PyErr RunStats × World :=
  match search_scenes denv.searchOutcome with
  | .error e => (.error e, w)
  | .ok scenes =>
    if scenes.isEmpty then (.ok zeroStats, w)
    else
      let stats0 := { zeroStats with total_scenes := scenes.length }
      let entity_ids := scenes.map (·.entityId)
      let new_entity_ids := new_ids_for dryRun w entity_ids
      if new_entity_ids.isEmpty then (.ok stats0, w)
      else
        let list_id := list_id_for dataset_name nowStr
        let w1 := { w with addToListCalls := w.addToListCalls ++ [(list_id, new_entity_ids)] }
        match add_scenes_to_list denv.addOutcome new_entity_ids with
        | .error e => (.error e, w1)
        | .ok _ =>
          match get_download_options denv.optionsOutcome with
          | .error e => (.error e, w1)
          | .ok products =>
            let sl :=
              scene_loop dryRun cfg tempDir denv.sceneEnvs products dataset_name now
                new_entity_ids stats0 w1
            let w3 :=
              if dryRun then sl.2
              else
                let _ := delete_list false denv.deleteOutcome
                { sl.2 with deleteListCalls := sl.2.deleteListCalls ++ [list_id] }
            (sl.1, w3)

/-- The dataset loop of `BronzeIngestion.run` (bronze_ingestion.py:150-171):
a dataset-level exception is caught, its message appended to the run's
errors, and the remaining datasets still run. -/
def run_datasets (dryRun : Bool) (cfg : DatasetsConfig) (tempDir : PathP)
    (nowStr : String) (now : Nat) :
    List (String × DatasetEnv) → RunStats → World → RunStats × World
  | [], stats, w => (stats, w)
  | (name, denv) :: rest, stats, w =>
    let pd := process_dataset dryRun cfg tempDir nowStr now denv name w
    match pd.1 with
    | .ok ds =>
      run_datasets dryRun cfg tempDir nowStr now rest
        { total_scenes := stats.total_scenes + ds.total_scenes,
          total_bands := stats.total_bands + ds.total_bands,
          successful_scenes := stats.successful_scenes + ds.successful_scenes,
          failed_scenes := stats.failed_scenes + ds.failed_scenes,
          errors := stats.errors ++ ds.errors } pd.2
    | .error e =>
      run_datasets dryRun cfg tempDir nowStr now rest
        { stats with errors :=
            stats.errors ++ ["Error processing dataset " ++ name ++ ": " ++ pyErrMsg e] } pd.2

/-- `BronzeIngestion.__init__` + `run`: the constructor's `_get_temp_dir`
creates the temp directory only outside dry-run (bronze_ingestion.py:81-92),
then the datasets are processed in order. -/
def bronze_run (dryRun : Bool) (cfg : DatasetsConfig) (tempDir : PathP)
    (nowStr : String) (now : Nat) (denvs : List (String × DatasetEnv)) (w : World) :
    RunStats × World :=
  let w0 := if dryRun then w else { w with fs := mkdirParents w.fs tempDir }
  run_datasets dryRun cfg tempDir nowStr now denvs zeroStats w0

/-! ## Concrete fixtures (used by the witnesses and counterexamples) -/

/-- A representative band configuration (the dataset → band-name mapping the
configuration source supplies, §6 of the spec). -/
def cfg0 : DatasetsConfig :=
  { landsat_8_9 :=
      ⟨some "SR_B3", some "SR_B6", some "QA_PIXEL", some "QA_RADSAT", some "SR_QA_AEROSOL",
       some "MTL"⟩,
    landsat_7 :=
      ⟨some "SR_B2", some "SR_B5", some "QA_PIXEL", some "QA_RADSAT", none, some "MTL"⟩,
    landsat_4_5 :=
      ⟨some "SR_B2", some "SR_B5", some "QA_PIXEL", some "QA_RADSAT", none, some "MTL"⟩ }

def eid0 : String := "LC80040532026022LGN00"

/-- A successful envelope carrying `d`. -/
def okEnv {α : Type} (d : α) : HttpOutcome α := .response ⟨none, "", some d⟩

/-- An envelope carrying an application error code. -/
def appErrEnv (α : Type) : HttpOutcome α := .response ⟨some "API_ERROR", "simulated failure", none⟩

def prod0 : Product := ⟨eid0, [⟨eid0 ++ "_SR_B3.TIF", eid0, "P3"⟩]⟩

def sceneEnv0 : SceneEnv :=
  { requestOutcome := .transportError,
    fileResponses := fun _ => ⟨true, none, "image/tiff", ⟨1⟩⟩,
    mtlParse := .ok [],
    insertDb := .ok 1,
    sceneYear := .ok 2024,
    bandIngest := fun _ => .ok () }

def denv0 : DatasetEnv :=
  { searchOutcome := okEnv ⟨[⟨eid0⟩]⟩,
    addOutcome := okEnv 1,
    optionsOutcome := okEnv [prod0],
    deleteOutcome := okEnv (),
    sceneEnvs := fun _ => sceneEnv0 }

def w0 : World := ⟨⟨[], []⟩, [], [], [], [], [], [], []⟩

/-- Dataset oracle where populating the scene list raises (a JSON decode
error escaping `_send_request`, which only catches `RequestException`). -/
def denvAddRaises : DatasetEnv := { denv0 with addOutcome := .raised .jsonDecodeError }

def urlB3 : String := "https://host/LC08_L2SP_X_SR_B3.TIF"

/-- Scene oracle where one band downloads fine but no metadata file exists. -/
def sceneEnvNoMtl : SceneEnv := { sceneEnv0 with requestOutcome := okEnv ⟨[⟨urlB3⟩], []⟩ }

def urlMtl : String := "https://host/LC08_L2SP_X_MTL.txt"

/-- Scene oracle for a fully successful non-dry-run scene: one band file and
one metadata file download, parsing yields the mock fixture map, and the
database round-trips succeed. -/
def sceneEnvOk : SceneEnv :=
  { requestOutcome := okEnv ⟨[⟨urlB3⟩, ⟨urlMtl⟩], []⟩,
    fileResponses := fun _ => ⟨true, none, "image/tiff", ⟨1⟩⟩,
    mtlParse := .ok mock_metadata,
    insertDb := .ok 1,
    sceneYear := .ok 2026,
    bandIngest := fun _ => .ok () }

/-- Metadata map in which every corner key resolves but the upper-left
latitude is the (perfectly legal) coordinate `0.0`, which is falsy in
Python. -/
def zeroCornerMeta : Metadata :=
  ("PROJECTION_ATTRIBUTES.CORNER_UL_LAT_PRODUCT", .numV 0 1) :: mock_metadata

/-- `Except.isOk` as an executable Bool. -/
def exOk : Except PyErr Nat → Bool
  | .ok _ => true
  | .error _ => false

/-- A 200 response that is a disguised error: JSON content-type where a
binary band file was expected. -/
def respJson : HttpFileResponse :=
  ⟨true, some "attachment; filename=\"F_SR_B3.TIF\"", "application/json", ⟨9⟩⟩

/-- A filesystem that already holds a stale file at the derived filename. -/
def fsJson : FS := ⟨[["d"]], [(["d", "F_SR_B3.TIF"], ⟨3⟩)]⟩

/-- The four instrumentation traces agree between two worlds. -/
def sameTraces (w w' : World) : Prop :=
  w'.addToListCalls = w.addToListCalls ∧ w'.deleteListCalls = w.deleteListCalls ∧
  w'.requestDownloadCalls = w.requestDownloadCalls ∧ w'.processSceneCalls = w.processSceneCalls

/-- Only the database tables may differ: filesystem and traces agree. -/
def sceneDbOnly (w w' : World) : Prop :=
  w'.fs = w.fs ∧ sameTraces w w'

/-- The frame a dry run must preserve: the three database tables are
unchanged and no file has been created. -/
def dbFrame (w w' : World) : Prop :=
  w'.dbScenes = w.dbScenes ∧ w'.dbLog = w.dbLog ∧ w'.dbBands = w.dbBands ∧
  ∀ f, f ∈ w'.fs.files → f ∈ w.fs.files

/-! # Lemmas -/

theorem strMem_iff_mem (a : String) (l : List String) : strMem a l = true ↔ a ∈ l := by
  induction l with
  | nil => simp [strMem]
  | cons b rest ih =>
    by_cases h : a = b
    · subst h; simp [strMem]
    · simp [strMem, h, ih]

theorem containsSub_iff (hay sub : List Char) :
    containsSub hay sub = true ↔ ∃ l r, l ++ sub ++ r = hay := by
  constructor
  · intro h
    rcases List.any_eq_true.mp h with ⟨i, hi, hmatch⟩
    rw [List.mem_range] at hi
    have htk : (hay.drop i).take sub.length = sub := by
      simpa using hmatch
    refine ⟨hay.take i, hay.drop (i + sub.length), ?_⟩
    have h1 : hay.take i ++ hay.drop i = hay := List.take_append_drop i hay
    have h2 : (hay.drop i).take sub.length ++ (hay.drop i).drop sub.length = hay.drop i :=
      List.take_append_drop sub.length (hay.drop i)
    have h3 : (hay.drop i).drop sub.length = hay.drop (i + sub.length) := by
      rw [List.drop_drop]
    calc hay.take i ++ sub ++ hay.drop (i + sub.length)
        = hay.take i ++ (sub ++ hay.drop (i + sub.length)) := by rw [List.append_assoc]
      _ = hay.take i ++ ((hay.drop i).take sub.length ++ (hay.drop i).drop sub.length) := by
            rw [htk, h3]
      _ = hay.take i ++ hay.drop i := by rw [h2]
      _ = hay := h1
  · rintro ⟨l, r, rfl⟩
    apply List.any_eq_true.mpr
    refine ⟨l.length, ?_, ?_⟩
    · rw [List.mem_range]
      simp [List.length_append]; omega
    · have hdrop : (l ++ sub ++ r).drop l.length = sub ++ r := by
        rw [List.append_assoc, List.drop_append_of_le_length (le_refl _)]
        simp
      rw [hdrop]
      simp [List.take_append_of_le_length (le_refl sub.length)]

theorem pyIn_iff (sub s : String) :
    pyIn sub s = true ↔ ∃ l r, l ++ sub.data ++ r = s.data :=
  containsSub_iff s.data sub.data

theorem mem_band_filterMap (sds : List SecondaryDownload) (bands : List String)
    (c : DownloadCandidate) :
    c ∈ (sds.filterMap fun sd =>
      if bands.any (fun band => pyIn band sd.displayId) then
        some { entityId := sd.entityId, productId := sd.id : DownloadCandidate }
      else none) ↔
    ∃ sd, sd ∈ sds ∧ (∃ b, b ∈ bands ∧ ∃ l r, l ++ b.data ++ r = sd.displayId.data) ∧
      c = ⟨sd.entityId, sd.id⟩ := by
  rw [List.mem_filterMap]
  constructor
  · rintro ⟨sd, hsd, hf⟩
    by_cases h : bands.any (fun band => pyIn band sd.displayId)
    · rw [if_pos h] at hf
      refine ⟨sd, hsd, ?_, (Option.some_inj.mp hf).symm⟩
      rcases List.any_eq_true.mp h with ⟨b, hb, hpy⟩
      exact ⟨b, hb, (pyIn_iff _ _).mp hpy⟩
    · rw [if_neg h] at hf
      exact absurd hf (by simp)
  · rintro ⟨sd, hsd, ⟨b, hb, hsub⟩, rfl⟩
    refine ⟨sd, hsd, ?_⟩
    rw [if_pos]
    exact List.any_eq_true.mpr ⟨b, hb, (pyIn_iff _ _).mpr hsub⟩

theorem lookup_filter_ne (l : List (PathP × FileData)) (p : PathP) :
    (l.filter fun e => e.1 ≠ p).lookup p = none := by
  induction l with
  | nil => rfl
  | cons x l ih =>
    obtain ⟨k, v⟩ := x
    rw [List.filter_cons]
    by_cases hx : k = p
    · rw [if_neg (by simp [hx])]
      exact ih
    · rw [if_pos (by simp [hx])]
      have hbeq : (p == k) = false := beq_eq_false_iff_ne.mpr fun h => hx h.symm
      have hstep : List.lookup p ((k, v) :: l.filter fun e => e.1 ≠ p) =
          List.lookup p (l.filter fun e => e.1 ≠ p) := by
        simp only [List.lookup, hbeq]
      rw [hstep]
      exact ih

theorem fsRemoveFile_at (fs : FS) (p : PathP) : fsFileAt (fsRemoveFile fs p) p = none :=
  lookup_filter_ne fs.files p

/-! ### Filesystem lemmas -/

theorem isPrefixOf_self (l : PathP) : l.isPrefixOf l = true := by
  induction l with
  | nil => rfl
  | cons a as ih => simp [List.isPrefixOf, ih]

theorem rmtree_not_mem_self (fs : FS) (p : PathP) : p ∉ (rmtree fs p).dirs := by
  intro hmem
  have := (List.mem_filter.mp hmem).2
  simp [isPrefixOf_self] at this

theorem rmtree_files_subset (fs : FS) (p : PathP) :
    ∀ f, f ∈ (rmtree fs p).files → f ∈ fs.files := by
  intro f hf
  exact (List.mem_filter.mp hf).1

theorem fsAddDir_files (fs : FS) (q : PathP) : (fsAddDir fs q).files = fs.files := by
  unfold fsAddDir
  split <;> rfl

theorem fsAddDir_mem_self (fs : FS) (q : PathP) : q ∈ (fsAddDir fs q).dirs := by
  unfold fsAddDir
  split
  · assumption
  · simp

theorem fsAddDir_mem_mono (fs : FS) (q d : PathP) (h : d ∈ fs.dirs) :
    d ∈ (fsAddDir fs q).dirs := by
  unfold fsAddDir
  split
  · exact h
  · exact List.mem_append_left _ h

theorem mkdirFold_files (p : PathP) :
    ∀ (l : List Nat) (fs : FS),
      ((l.foldl (fun acc i => fsAddDir acc (p.take (i + 1))) fs)).files = fs.files := by
  intro l
  induction l with
  | nil => intro fs; rfl
  | cons i rest ih =>
    intro fs
    rw [List.foldl_cons, ih, fsAddDir_files]

theorem mkdirParents_files (fs : FS) (p : PathP) : (mkdirParents fs p).files = fs.files :=
  mkdirFold_files p _ fs

theorem mkdirFold_mem_mono (p : PathP) :
    ∀ (l : List Nat) (fs : FS) (d : PathP), d ∈ fs.dirs →
      d ∈ ((l.foldl (fun acc i => fsAddDir acc (p.take (i + 1))) fs)).dirs := by
  intro l
  induction l with
  | nil => intro fs d h; exact h
  | cons i rest ih =>
    intro fs d h
    rw [List.foldl_cons]
    exact ih _ _ (fsAddDir_mem_mono _ _ _ h)

theorem mkdirParents_mem_mono (fs : FS) (p d : PathP) (h : d ∈ fs.dirs) :
    d ∈ (mkdirParents fs p).dirs :=
  mkdirFold_mem_mono p _ fs d h

theorem mkdirParents_mem_self (fs : FS) (p : PathP) (h : p ≠ []) :
    p ∈ (mkdirParents fs p).dirs := by
  unfold mkdirParents
  obtain ⟨n, hn⟩ : ∃ n, p.length = n + 1 := by
    cases p with
    | nil => exact absurd rfl h
    | cons a as => exact ⟨as.length, rfl⟩
  rw [hn, List.range_succ, List.foldl_append, List.foldl_cons, List.foldl_nil]
  have htake : p.take (n + 1) = p := by
    rw [← hn]
    exact List.take_length p
  rw [htake]
  exact fsAddDir_mem_self _ _

theorem download_file_dirs (dryRun : Bool) (resp : HttpFileResponse) (url : String)
    (output_dir : PathP) (entity_id : String) (now : Nat) (fs : FS) :
    ((download_file dryRun resp url output_dir entity_id now fs).2).dirs = fs.dirs := by
  unfold download_file
  dsimp only
  split
  · rfl
  · split
    · rfl
    · split
      · split <;> rfl
      · split <;> rfl

theorem download_file_fs_dry (resp : HttpFileResponse) (url : String)
    (output_dir : PathP) (entity_id : String) (now : Nat) (fs : FS) :
    (download_file true resp url output_dir entity_id now fs).2 = fs := rfl

theorem downloadLoop_dirs (dryRun : Bool) (responses : Nat → HttpFileResponse)
    (output_dir : PathP) (now : Nat) :
    ∀ (items : List (String × String)) (i : Nat) (fs : FS),
      ((downloadLoop dryRun responses output_dir now items i fs).2).dirs = fs.dirs := by
  intro items
  induction items with
  | nil => intro i fs; rfl
  | cons item rest ih =>
    intro i fs
    obtain ⟨url, eid⟩ := item
    unfold downloadLoop
    simp only
    rw [ih]
    exact download_file_dirs _ _ _ _ _ _ _

theorem downloadLoop_fs_dry (responses : Nat → HttpFileResponse)
    (output_dir : PathP) (now : Nat) :
    ∀ (items : List (String × String)) (i : Nat) (fs : FS),
      (downloadLoop true responses output_dir now items i fs).2 = fs := by
  intro items
  induction items with
  | nil => intro i fs; rfl
  | cons item rest ih =>
    intro i fs
    obtain ⟨url, eid⟩ := item
    unfold downloadLoop
    simp only
    rw [download_file_fs_dry]
    exact ih _ _

theorem download_files_parallel_dirs (dryRun : Bool) (responses : Nat → HttpFileResponse)
    (download_urls : List (String × String)) (output_dir : PathP) (now : Nat) (fs : FS) :
    ((download_files_parallel dryRun responses download_urls output_dir now fs).2).dirs =
      (mkdirParents fs output_dir).dirs := by
  unfold download_files_parallel
  exact downloadLoop_dirs _ _ _ _ _ _ _

theorem download_files_parallel_files_dry (responses : Nat → HttpFileResponse)
    (download_urls : List (String × String)) (output_dir : PathP) (now : Nat) (fs : FS) :
    ((download_files_parallel true responses download_urls output_dir now fs).2).files =
      fs.files := by
  unfold download_files_parallel
  rw [downloadLoop_fs_dry]
  exact mkdirParents_files _ _

/-! ### Trace / frame lemmas for the orchestration -/

theorem sceneDbOnly_refl (w : World) : sceneDbOnly w w :=
  ⟨rfl, rfl, rfl, rfl, rfl⟩

theorem sceneDbOnly_trans {w w' w'' : World}
    (h1 : sceneDbOnly w w') (h2 : sceneDbOnly w' w'') : sceneDbOnly w w'' :=
  ⟨h2.1.trans h1.1, h2.2.1.trans h1.2.1, h2.2.2.1.trans h1.2.2.1,
   h2.2.2.2.1.trans h1.2.2.2.1, h2.2.2.2.2.trans h1.2.2.2.2⟩

theorem log_download_success_dbOnly (dryRun : Bool) (eid band : String) (tif : PathP)
    (url : String) (dur : Option Nat) (w : World) :
    sceneDbOnly w (log_download_success dryRun eid band tif url dur w).2 := by
  unfold log_download_success
  split
  · split <;> exact sceneDbOnly_refl w
  · split
    · exact sceneDbOnly_refl w
    · exact ⟨rfl, rfl, rfl, rfl, rfl⟩

theorem log_download_failure_dbOnly (dryRun : Bool) (eid band url : String) (dur : Option Nat)
    (msg : String) (w : World) :
    sceneDbOnly w (log_download_failure dryRun eid band url dur msg w).2 := by
  unfold log_download_failure
  split
  · split <;> exact sceneDbOnly_refl w
  · exact ⟨rfl, rfl, rfl, rfl, rfl⟩

theorem sceneResultsLoop_dbOnly (dryRun : Bool) :
    ∀ (rs : List DLRecord) (tifs : List (PathP × String)) (count : Nat) (w : World),
      sceneDbOnly w (sceneResultsLoop dryRun rs tifs count w).2 := by
  intro rs
  induction rs with
  | nil => intro tifs count w; exact sceneDbOnly_refl w
  | cons r rest ih =>
    intro tifs count w
    unfold sceneResultsLoop
    dsimp only
    split
    · split
      · exact log_download_success_dbOnly _ _ _ _ _ _ _
      · exact sceneDbOnly_trans (log_download_success_dbOnly _ _ _ _ _ _ _) (ih _ _ _)
    · split
      · exact log_download_failure_dbOnly _ _ _ _ _ _ _
      · exact sceneDbOnly_trans (log_download_failure_dbOnly _ _ _ _ _ _ _) (ih _ _ _)

theorem insert_scene_metadata_dbOnly (dryRun : Bool) (env : SceneEnv) (dataset_name : String)
    (w : World) : sceneDbOnly w (insert_scene_metadata dryRun env dataset_name w).2 := by
  unfold insert_scene_metadata
  split
  · exact sceneDbOnly_refl w
  · split
    · exact sceneDbOnly_refl w
    · split
      · exact sceneDbOnly_refl w
      · exact ⟨rfl, rfl, rfl, rfl, rfl⟩

theorem ingestLoop_dbOnly (env : SceneEnv) (scene_id : Int) (year : Nat) :
    ∀ (tifs : List (PathP × String)) (i count : Nat) (w : World),
      sceneDbOnly w (ingestLoop env scene_id year tifs i count w).2 := by
  intro tifs
  induction tifs with
  | nil => intro i count w; exact sceneDbOnly_refl w
  | cons t rest ih =>
    intro i count w
    obtain ⟨p, band⟩ := t
    unfold ingestLoop
    split
    · exact ih _ _ _
    · split
      · exact sceneDbOnly_trans ⟨rfl, rfl, rfl, rfl, rfl⟩ (ih _ _ _)
      · exact ih _ _ _

theorem ingest_bands_dbOnly (dryRun : Bool) (env : SceneEnv) (tifs : List (PathP × String))
    (scene_id : Int) (w : World) :
    sceneDbOnly w (ingest_bands_to_postgis dryRun env tifs scene_id w).2 := by
  unfold ingest_bands_to_postgis
  split
  · exact sceneDbOnly_refl w
  · split
    · exact sceneDbOnly_refl w
    · split
      · exact sceneDbOnly_refl w
      · exact ingestLoop_dbOnly _ _ _ _ _ _ _

/-! ### Dry-run: the scene-level helpers do not touch the world at all -/

theorem log_download_success_dry (eid band : String) (tif : PathP) (url : String)
    (dur : Option Nat) (w : World) :
    (log_download_success true eid band tif url dur w).2 = w := by
  unfold log_download_success
  rw [if_pos rfl]
  split <;> rfl

theorem log_download_failure_dry (eid band url : String) (dur : Option Nat) (msg : String)
    (w : World) : (log_download_failure true eid band url dur msg w).2 = w := by
  unfold log_download_failure
  rw [if_pos rfl]
  split <;> rfl

theorem sceneResultsLoop_dry :
    ∀ (rs : List DLRecord) (tifs : List (PathP × String)) (count : Nat) (w : World),
      (sceneResultsLoop true rs tifs count w).2 = w := by
  intro rs
  induction rs with
  | nil => intro tifs count w; rfl
  | cons r rest ih =>
    intro tifs count w
    unfold sceneResultsLoop
    dsimp only
    split
    · split
      · exact log_download_success_dry _ _ _ _ _ _
      · rw [ih]
        exact log_download_success_dry _ _ _ _ _ _
    · split
      · exact log_download_failure_dry _ _ _ _ _ _
      · rw [ih]
        exact log_download_failure_dry _ _ _ _ _ _

theorem insert_scene_metadata_dry (env : SceneEnv) (dataset_name : String) (w : World) :
    (insert_scene_metadata true env dataset_name w).2 = w := rfl

theorem ingest_bands_dry (env : SceneEnv) (tifs : List (PathP × String)) (scene_id : Int)
    (w : World) : (ingest_bands_to_postgis true env tifs scene_id w).2 = w := by
  unfold ingest_bands_to_postgis
  split <;> rfl

theorem dbFrame_refl (w : World) : dbFrame w w :=
  ⟨rfl, rfl, rfl, fun _ hf => hf⟩

theorem dbFrame_trans {w w' w'' : World} (h1 : dbFrame w w') (h2 : dbFrame w' w'') :
    dbFrame w w'' :=
  ⟨h2.1.trans h1.1, h2.2.1.trans h1.2.1, h2.2.2.1.trans h1.2.2.1,
   fun f hf => h1.2.2.2 f (h2.2.2.2 f hf)⟩

/-- `_process_scene` only ever touches the remote-call traces it owns:
the list-add and list-delete traces are untouched, the download-request
trace gains at most this scene's id, and the scene trace gains exactly it. -/
theorem process_scene_traces (dryRun : Bool) (cfg : DatasetsConfig) (tempDir : PathP)
    (env : SceneEnv) (entity_id : String) (products : List Product) (dataset_name : String)
    (now : Nat) (w : World) :
    (process_scene dryRun cfg tempDir env entity_id products dataset_name now w).2.addToListCalls
      = w.addToListCalls ∧
    (process_scene dryRun cfg tempDir env entity_id products dataset_name now w).2.deleteListCalls
      = w.deleteListCalls ∧
    ((process_scene dryRun cfg tempDir env entity_id products dataset_name now
        w).2.requestDownloadCalls = w.requestDownloadCalls ++ [entity_id] ∨
     (process_scene dryRun cfg tempDir env entity_id products dataset_name now
        w).2.requestDownloadCalls = w.requestDownloadCalls) ∧
    (process_scene dryRun cfg tempDir env entity_id products dataset_name now
        w).2.processSceneCalls = w.processSceneCalls ++ [entity_id] := by
  unfold process_scene
  dsimp only
  split
  · exact ⟨rfl, rfl, Or.inr rfl, rfl⟩
  · split
    · exact ⟨rfl, rfl, Or.inl rfl, rfl⟩
    · exact ⟨rfl, rfl, Or.inl rfl, rfl⟩
    · split
      · exact ⟨rfl, rfl, Or.inl rfl, rfl⟩
      · split
        · refine ⟨((sceneResultsLoop_dbOnly _ _ _ _ _).2.1).trans rfl,
            ((sceneResultsLoop_dbOnly _ _ _ _ _).2.2.1).trans rfl,
            Or.inl (((sceneResultsLoop_dbOnly _ _ _ _ _).2.2.2.1).trans rfl),
            ((sceneResultsLoop_dbOnly _ _ _ _ _).2.2.2.2).trans rfl⟩
        · split
          · refine ⟨((sceneResultsLoop_dbOnly _ _ _ _ _).2.1).trans rfl,
              ((sceneResultsLoop_dbOnly _ _ _ _ _).2.2.1).trans rfl,
              Or.inl (((sceneResultsLoop_dbOnly _ _ _ _ _).2.2.2.1).trans rfl),
              ((sceneResultsLoop_dbOnly _ _ _ _ _).2.2.2.2).trans rfl⟩
          · split
            · refine ⟨((sceneResultsLoop_dbOnly _ _ _ _ _).2.1).trans rfl,
                ((sceneResultsLoop_dbOnly _ _ _ _ _).2.2.1).trans rfl,
                Or.inl (((sceneResultsLoop_dbOnly _ _ _ _ _).2.2.2.1).trans rfl),
                ((sceneResultsLoop_dbOnly _ _ _ _ _).2.2.2.2).trans rfl⟩
            · split
              · refine ⟨(((sceneDbOnly_trans (sceneResultsLoop_dbOnly _ _ _ _ _)
                    (insert_scene_metadata_dbOnly _ _ _ _)).2.1)).trans rfl,
                  (((sceneDbOnly_trans (sceneResultsLoop_dbOnly _ _ _ _ _)
                    (insert_scene_metadata_dbOnly _ _ _ _)).2.2.1)).trans rfl,
                  Or.inl ((((sceneDbOnly_trans (sceneResultsLoop_dbOnly _ _ _ _ _)
                    (insert_scene_metadata_dbOnly _ _ _ _)).2.2.2.1)).trans rfl),
                  (((sceneDbOnly_trans (sceneResultsLoop_dbOnly _ _ _ _ _)
                    (insert_scene_metadata_dbOnly _ _ _ _)).2.2.2.2)).trans rfl⟩
              · split
                · refine ⟨(((sceneDbOnly_trans (sceneDbOnly_trans
                      (sceneResultsLoop_dbOnly _ _ _ _ _)
                      (insert_scene_metadata_dbOnly _ _ _ _))
                      (ingest_bands_dbOnly _ _ _ _ _)).2.1)).trans rfl,
                    (((sceneDbOnly_trans (sceneDbOnly_trans
                      (sceneResultsLoop_dbOnly _ _ _ _ _)
                      (insert_scene_metadata_dbOnly _ _ _ _))
                      (ingest_bands_dbOnly _ _ _ _ _)).2.2.1)).trans rfl,
                    Or.inl ((((sceneDbOnly_trans (sceneDbOnly_trans
                      (sceneResultsLoop_dbOnly _ _ _ _ _)
                      (insert_scene_metadata_dbOnly _ _ _ _))
                      (ingest_bands_dbOnly _ _ _ _ _)).2.2.2.1)).trans rfl),
                    (((sceneDbOnly_trans (sceneDbOnly_trans
                      (sceneResultsLoop_dbOnly _ _ _ _ _)
                      (insert_scene_metadata_dbOnly _ _ _ _))
                      (ingest_bands_dbOnly _ _ _ _ _)).2.2.2.2)).trans rfl⟩
                · refine ⟨(((sceneDbOnly_trans (sceneDbOnly_trans
                      (sceneResultsLoop_dbOnly _ _ _ _ _)
                      (insert_scene_metadata_dbOnly _ _ _ _))
                      (ingest_bands_dbOnly _ _ _ _ _)).2.1)).trans rfl,
                    (((sceneDbOnly_trans (sceneDbOnly_trans
                      (sceneResultsLoop_dbOnly _ _ _ _ _)
                      (insert_scene_metadata_dbOnly _ _ _ _))
                      (ingest_bands_dbOnly _ _ _ _ _)).2.2.1)).trans rfl,
                    Or.inl ((((sceneDbOnly_trans (sceneDbOnly_trans
                      (sceneResultsLoop_dbOnly _ _ _ _ _)
                      (insert_scene_metadata_dbOnly _ _ _ _))
                      (ingest_bands_dbOnly _ _ _ _ _)).2.2.2.1)).trans rfl),
                    (((sceneDbOnly_trans (sceneDbOnly_trans
                      (sceneResultsLoop_dbOnly _ _ _ _ _)
                      (insert_scene_metadata_dbOnly _ _ _ _))
                      (ingest_bands_dbOnly _ _ _ _ _)).2.2.2.2)).trans rfl⟩

/-- In dry-run a scene step inserts no database row and creates no file
(it does create scratch directories, and `rmtree` may delete pre-existing
files under the per-scene directory). -/
theorem process_scene_dry_dbFrame (cfg : DatasetsConfig) (tempDir : PathP) (env : SceneEnv)
    (entity_id : String) (products : List Product) (dataset_name : String) (now : Nat)
    (w : World) :
    dbFrame w (process_scene true cfg tempDir env entity_id products dataset_name now w).2 := by
  unfold process_scene
  dsimp only
  split
  · exact dbFrame_refl _
  · split
    · exact dbFrame_refl _
    · exact dbFrame_refl _
    · split
      · exact dbFrame_refl _
      · split
        · rw [sceneResultsLoop_dry]
          refine ⟨rfl, rfl, rfl, ?_⟩
          intro f hf
          rwa [download_files_parallel_files_dry, mkdirParents_files] at hf
        · split
          · rw [sceneResultsLoop_dry]
            refine ⟨rfl, rfl, rfl, ?_⟩
            intro f hf
            rwa [download_files_parallel_files_dry, mkdirParents_files] at hf
          · split
            · rw [sceneResultsLoop_dry]
              refine ⟨rfl, rfl, rfl, ?_⟩
              intro f hf
              rwa [download_files_parallel_files_dry, mkdirParents_files] at hf
            · split
              · rw [insert_scene_metadata_dry, sceneResultsLoop_dry]
                refine ⟨rfl, rfl, rfl, ?_⟩
                intro f hf
                rwa [download_files_parallel_files_dry, mkdirParents_files] at hf
              · split
                · rw [ingest_bands_dry, insert_scene_metadata_dry, sceneResultsLoop_dry]
                  refine ⟨rfl, rfl, rfl, ?_⟩
                  intro f hf
                  rwa [download_files_parallel_files_dry, mkdirParents_files] at hf
                · rw [ingest_bands_dry, insert_scene_metadata_dry, sceneResultsLoop_dry]
                  refine ⟨rfl, rfl, rfl, ?_⟩
                  intro f hf
                  have hf2 := rmtree_files_subset _ _ f hf
                  dsimp only at hf2
                  rwa [download_files_parallel_files_dry, mkdirParents_files] at hf2

/-- The per-scene loop of `_process_dataset` never touches the list traces,
and only ever adds members of the processed id list to the download-request
and scene traces. -/
theorem scene_loop_traces (dryRun : Bool) (cfg : DatasetsConfig) (tempDir : PathP)
    (envs : String → SceneEnv) (products : List Product) (dataset_name : String) (now : Nat) :
    ∀ (L : List String) (stats : RunStats) (w : World),
      (scene_loop dryRun cfg tempDir envs products dataset_name now L stats w).2.addToListCalls
        = w.addToListCalls ∧
      (scene_loop dryRun cfg tempDir envs products dataset_name now L stats w).2.deleteListCalls
        = w.deleteListCalls ∧
      (∀ x, x ∈ (scene_loop dryRun cfg tempDir envs products dataset_name now L stats
          w).2.requestDownloadCalls → x ∈ w.requestDownloadCalls ∨ x ∈ L) ∧
      (∀ x, x ∈ (scene_loop dryRun cfg tempDir envs products dataset_name now L stats
          w).2.processSceneCalls → x ∈ w.processSceneCalls ∨ x ∈ L) := by
  intro L
  induction L with
  | nil =>
    intro stats w
    exact ⟨rfl, rfl, fun x hx => Or.inl hx, fun x hx => Or.inl hx⟩
  | cons eid rest ih =>
    intro stats w
    have hps := process_scene_traces dryRun cfg tempDir (envs eid) eid products dataset_name now w
    unfold scene_loop
    dsimp only
    split
    · -- scene succeeded: recurse from ps.2
      refine ⟨(ih _ _).1.trans hps.1, (ih _ _).2.1.trans hps.2.1, ?_, ?_⟩
      · intro x hx
        rcases (ih _ _).2.2.1 x hx with hin | hL
        · rcases hps.2.2.1 with heq | heq
          · rw [heq] at hin
            rcases List.mem_append.mp hin with h | h
            · exact Or.inl h
            · rcases List.mem_singleton.mp h with rfl
              exact Or.inr (List.mem_cons_self _ _)
          · rw [heq] at hin
            exact Or.inl hin
        · exact Or.inr (List.mem_cons_of_mem _ hL)
      · intro x hx
        rcases (ih _ _).2.2.2 x hx with hin | hL
        · rw [hps.2.2.2] at hin
          rcases List.mem_append.mp hin with h | h
          · exact Or.inl h
          · rcases List.mem_singleton.mp h with rfl
            exact Or.inr (List.mem_cons_self _ _)
        · exact Or.inr (List.mem_cons_of_mem _ hL)
    · -- scene failed: the failure is logged, then either the loop continues
      -- or the dry-run logging TypeError aborts it
      next _ e _ =>
      have hlf := log_download_failure_dbOnly dryRun eid "SCENE_PROCESSING_ERROR" "N/A" none
        (pyErrMsg e)
        (process_scene dryRun cfg tempDir (envs eid) eid products dataset_name now w).2
      split
      · refine ⟨(ih _ _).1.trans ((hlf.2.1).trans hps.1),
          (ih _ _).2.1.trans ((hlf.2.2.1).trans hps.2.1), ?_, ?_⟩
        · intro x hx
          rcases (ih _ _).2.2.1 x hx with hin | hL
          · rw [hlf.2.2.2.1] at hin
            rcases hps.2.2.1 with heq | heq
            · rw [heq] at hin
              rcases List.mem_append.mp hin with h | h
              · exact Or.inl h
              · rcases List.mem_singleton.mp h with rfl
                exact Or.inr (List.mem_cons_self _ _)
            · rw [heq] at hin
              exact Or.inl hin
          · exact Or.inr (List.mem_cons_of_mem _ hL)
        · intro x hx
          rcases (ih _ _).2.2.2 x hx with hin | hL
          · rw [hlf.2.2.2.2, hps.2.2.2] at hin
            rcases List.mem_append.mp hin with h | h
            · exact Or.inl h
            · rcases List.mem_singleton.mp h with rfl
              exact Or.inr (List.mem_cons_self _ _)
          · exact Or.inr (List.mem_cons_of_mem _ hL)
      · refine ⟨(hlf.2.1).trans hps.1, (hlf.2.2.1).trans hps.2.1, ?_, ?_⟩
        · intro x hx
          rw [hlf.2.2.2.1] at hx
          rcases hps.2.2.1 with heq | heq
          · rw [heq] at hx
            rcases List.mem_append.mp hx with h | h
            · exact Or.inl h
            · rcases List.mem_singleton.mp h with rfl
              exact Or.inr (List.mem_cons_self _ _)
          · rw [heq] at hx
            exact Or.inl hx
        · intro x hx
          rw [hlf.2.2.2.2, hps.2.2.2] at hx
          rcases List.mem_append.mp hx with h | h
          · exact Or.inl h
          · rcases List.mem_singleton.mp h with rfl
            exact Or.inr (List.mem_cons_self _ _)

/-- In dry-run the whole per-scene loop preserves the database/file frame. -/
theorem scene_loop_dry_dbFrame (cfg : DatasetsConfig) (tempDir : PathP)
    (envs : String → SceneEnv) (products : List Product) (dataset_name : String) (now : Nat) :
    ∀ (L : List String) (stats : RunStats) (w : World),
      dbFrame w (scene_loop true cfg tempDir envs products dataset_name now L stats w).2 := by
  intro L
  induction L with
  | nil => intro stats w; exact dbFrame_refl _
  | cons eid rest ih =>
    intro stats w
    unfold scene_loop
    dsimp only
    split
    · exact dbFrame_trans (process_scene_dry_dbFrame _ _ _ _ _ _ _ _) (ih _ _)
    · split
      · rw [log_download_failure_dry]
        exact dbFrame_trans (process_scene_dry_dbFrame _ _ _ _ _ _ _ _) (ih _ _)
      · rw [log_download_failure_dry]
        exact process_scene_dry_dbFrame _ _ _ _ _ _ _ _

/-- An entity id already present in `bronze.landsat_scenes` never survives
the dedup filter. -/
theorem mem_db_not_new (w : World) (ids : List String) (eid : String)
    (h : strMem eid w.dbScenes = true) : eid ∉ new_ids_for false w ids := by
  intro hmem
  unfold new_ids_for at hmem
  obtain ⟨hin, hpred⟩ := List.mem_filter.mp hmem
  have hex : strMem eid (get_existing_entity_ids false w ids) = true := by
    unfold get_existing_entity_ids
    rw [if_neg, if_neg]
    · apply (strMem_iff_mem _ _).mpr
      apply List.mem_filter.mpr
      refine ⟨(strMem_iff_mem _ _).mp h, ?_⟩
      simp [strMem_iff_mem, hin]
    · exact Bool.false_ne_true
    · intro hemp
      rw [List.isEmpty_iff] at hemp
      rw [hemp] at hin
      exact absurd hin (List.not_mem_nil eid)
  rw [hex] at hpred
  simp at hpred

/-- When every searched id is already stored, the dedup filter is empty. -/
theorem new_ids_all_existing (w : World) (scenes : List SearchScene)
    (hall : ∀ s, s ∈ scenes → strMem s.entityId w.dbScenes = true) :
    new_ids_for false w (scenes.map (·.entityId)) = [] := by
  unfold new_ids_for
  rw [List.filter_eq_nil_iff]
  intro eid hin
  obtain ⟨s, hs, rfl⟩ := List.mem_map.mp hin
  have hex : strMem s.entityId (get_existing_entity_ids false w (scenes.map (·.entityId)))
      = true := by
    unfold get_existing_entity_ids
    rw [if_neg, if_neg]
    · apply (strMem_iff_mem _ _).mpr
      apply List.mem_filter.mpr
      refine ⟨(strMem_iff_mem _ _).mp (hall s hs), ?_⟩
      simp [strMem_iff_mem, hin]
    · exact Bool.false_ne_true
    · intro hemp
      rw [List.isEmpty_iff] at hemp
      rw [hemp] at hin
      exact absurd hin (List.not_mem_nil _)
  simp [hex]

/-- A dry-run dataset iteration inserts no row and creates no file. -/
theorem process_dataset_dry_dbFrame (cfg : DatasetsConfig) (tempDir : PathP) (nowStr : String)
    (now : Nat) (denv : DatasetEnv) (dataset_name : String) (w : World) :
    dbFrame w (process_dataset true cfg tempDir nowStr now denv dataset_name w).2 := by
  unfold process_dataset
  split
  · exact dbFrame_refl _
  · dsimp only
    split
    · exact dbFrame_refl _
    · split
      · exact dbFrame_refl _
      · split
        · exact ⟨rfl, rfl, rfl, fun _ hf => hf⟩
        · split
          · exact ⟨rfl, rfl, rfl, fun _ hf => hf⟩
          · exact dbFrame_trans ⟨rfl, rfl, rfl, fun _ hf => hf⟩
              (scene_loop_dry_dbFrame _ _ _ _ _ _ _ _ _)

/-- A dry run of the whole dataset loop inserts no row and creates no
file. -/
theorem run_datasets_dry_dbFrame (cfg : DatasetsConfig) (tempDir : PathP) (nowStr : String)
    (now : Nat) :
    ∀ (denvs : List (String × DatasetEnv)) (stats : RunStats) (w : World),
      dbFrame w (run_datasets true cfg tempDir nowStr now denvs stats w).2 := by
  intro denvs
  induction denvs with
  | nil => intro stats w; exact dbFrame_refl _
  | cons d rest ih =>
    intro stats w
    obtain ⟨name, denv⟩ := d
    unfold run_datasets
    dsimp only
    split
    · exact dbFrame_trans (process_dataset_dry_dbFrame _ _ _ _ _ _ _) (ih _ _)
    · exact dbFrame_trans (process_dataset_dry_dbFrame _ _ _ _ _ _ _) (ih _ _)

/-! # Claim theorems -/

/-- C9: `filter_bands` returns exactly the `{entityId, productId}` pairs of
the secondary downloads whose `displayId` contains some requested band name
as a substring; because the match is substring containment, the requested
name `SR_B1` also selects an `SR_B10` file (prefix collision). -/
theorem C9_filter_bands_substring_selection :
    (∀ (products : List Product) (band_names : List String) (c : DownloadCandidate),
      c ∈ filter_bands products band_names ↔
        ∃ p, p ∈ products ∧ ∃ sd, sd ∈ p.secondaryDownloads ∧
          (∃ b, b ∈ band_names ∧ ∃ l r, l ++ b.data ++ r = sd.displayId.data) ∧
          c = ⟨sd.entityId, sd.id⟩)
    ∧ filter_bands
        [⟨"E1", [⟨"LC08_L2SP_005054_20240115_20240126_02_T1_SR_B10.TIF", "E1", "P10"⟩]⟩]
        ["SR_B1"]
      = [⟨"E1", "P10"⟩] := by
  constructor
  · intro products band_names c
    induction products with
    | nil => simp [filter_bands]
    | cons p rest ih =>
      by_cases hp : p.secondaryDownloads.isEmpty
      · have hnil : p.secondaryDownloads = [] := List.isEmpty_iff.mp hp
        simp [filter_bands, hp, ih, hnil]
      · simp only [filter_bands, if_neg hp, List.mem_append, ih, mem_band_filterMap,
          List.mem_cons]
        constructor
        · rintro (⟨sd, hsd, hb, rfl⟩ | ⟨q, hq, rest⟩)
          · exact ⟨p, Or.inl rfl, sd, hsd, hb, rfl⟩
          · exact ⟨q, Or.inr hq, rest⟩
        · rintro ⟨q, hq | hq, rest⟩
          · subst hq
            rcases rest with ⟨sd, hsd, hb, rfl⟩
            exact Or.inl ⟨sd, hsd, hb, rfl⟩
          · exact Or.inr ⟨q, hq, rest⟩
  · rfl

theorem C9_filter_bands_substring_selection_witness :
    (⟨"E1", "P10"⟩ : DownloadCandidate) ∈ filter_bands
      [⟨"E1", [⟨"LC08_L2SP_005054_20240115_20240126_02_T1_SR_B10.TIF", "E1", "P10"⟩]⟩]
      ["SR_B1"] := by
  refine (C9_filter_bands_substring_selection.1 _ _ _).mpr ?_
  exact ⟨_, List.mem_singleton.mpr rfl, _, List.mem_singleton.mpr rfl,
    ⟨"SR_B1", List.mem_singleton.mpr rfl,
      "LC08_L2SP_005054_20240115_20240126_02_T1_".data, "0.TIF".data, by decide⟩, rfl⟩

/-- C10: every sensor string outside `OLI`/`ETM+`/`TM` — in particular the
`UNKNOWN` value produced for an unrecognized entity-id prefix — resolves to
the Landsat-8/9 (`landsat_8_9`) band set instead of failing. -/
theorem C10_unknown_sensor_band_fallback :
    (∀ (cfg : DatasetsConfig) (sensor : String),
        sensor ≠ "OLI" → sensor ≠ "ETM+" → sensor ≠ "TM" →
        get_required_bands cfg sensor = get_required_bands cfg "OLI")
    ∧ get_sensor_from_entity_id "XY99_L2SP_005054_20240115_02_T1" = "UNKNOWN" := by
  constructor
  · intro cfg sensor h1 h2 h3
    simp [get_required_bands, sensor_to_dataset_key, h1, h2, h3]
  · rfl

theorem C10_unknown_sensor_band_fallback_witness :
    get_required_bands cfg0 "UNKNOWN" = get_required_bands cfg0 "OLI" :=
  C10_unknown_sensor_band_fallback.1 cfg0 "UNKNOWN" (by decide) (by decide) (by decide)

/-- C5 counterexample: on an envelope carrying an application error code
the four domain operations do NOT fail — they return the success-shaped
defaults `0`, `[]`, `None` and `False`, indistinguishable from genuine
empty successes, refuting the claim that a `RemoteApiError` is surfaced. -/
theorem C5_counterexample :
    add_scenes_to_list (appErrEnv Int) ["E1"] = .ok 0 ∧
    get_download_options (appErrEnv (List Product)) = .ok [] ∧
    request_downloads false (appErrEnv DownloadRequestData) [⟨"E1", "P1"⟩] = .ok none ∧
    delete_list false (appErrEnv Unit) = .ok false :=
  ⟨rfl, rfl, rfl, rfl⟩

/-- C5 (amended): whenever the response envelope carries an application
error code, `add_scenes_to_list`, `get_download_options`,
`request_downloads` and `delete_list` log the error and return the
success-shaped defaults `0`, `[]`, `None` and `False` respectively; no
exception is raised and no error object reaches the orchestration step. -/
theorem C5_app_error_mapped_to_defaults :
    ∀ (code msg : String) (ids : List String) (dls : List DownloadCandidate)
      (dInt : Option Int) (dProd : Option (List Product))
      (dReq : Option DownloadRequestData) (dUnit : Option Unit),
      code ≠ "" →
      add_scenes_to_list (.response ⟨some code, msg, dInt⟩) ids = .ok 0 ∧
      get_download_options (.response ⟨some code, msg, dProd⟩) = .ok [] ∧
      request_downloads false (.response ⟨some code, msg, dReq⟩) dls = .ok none ∧
      delete_list false (.response ⟨some code, msg, dUnit⟩) = .ok false := by
  intro code msg ids dls dInt dProd dReq dUnit h
  have hc : errorCodeTruthy (some code) = true := by simp [errorCodeTruthy, h]
  refine ⟨?_, ?_, ?_, ?_⟩ <;>
    simp [add_scenes_to_list, get_download_options, request_downloads, delete_list,
      send_request, send_request_full, hc]

theorem C5_app_error_mapped_to_defaults_witness :
    add_scenes_to_list (.response ⟨some "FAILED_REQUEST", "bad input", some 7⟩) ["E2"] = .ok 0 ∧
    get_download_options (.response ⟨some "FAILED_REQUEST", "bad input", none⟩) = .ok [] ∧
    request_downloads false (.response ⟨some "FAILED_REQUEST", "bad input", none⟩) [] = .ok none ∧
    delete_list false (.response ⟨some "FAILED_REQUEST", "bad input", none⟩) = .ok false :=
  C5_app_error_mapped_to_defaults "FAILED_REQUEST" "bad input" ["E2"] [] (some 7) none none none
    (by decide)

/-- C6 counterexample: for a file with an unrecognized extension whose first
line is an XML declaration, the claim requires Grammar B (XML); the code
classifies it as Grammar A (flat text) because the `'=' in first_line` test
(satisfied by `version="1.0"`) is checked before the markup test. -/
theorem C6_counterexample :
    detect_format ".met" ["<?xml version=\"1.0\" encoding=\"UTF-8\"?>"] = .ok .txt ∧
    MTLFormat.txt ≠ MTLFormat.xml :=
  ⟨rfl, by decide⟩

/-- C6 (amended): for an unrecognized extension, detection inspects the
FIRST line (which may be blank): a line starting with `GROUP` or containing
`=` selects the flat-text grammar; otherwise a line starting with `<?xml` or
`<` selects the XML grammar; any other line raises the unknown-format error.
Because the `=` test precedes the markup test, an XML declaration carrying
attributes selects the flat-text grammar. -/
theorem C6_first_line_detection :
    ∀ (suffix : String) (lines : List String),
      strLower suffix ≠ ".txt" → strLower suffix ≠ ".xml" →
      (((startsWithL (pyStrip (lines.headD "")) "GROUP" = true) ∨
          pyIn "=" (pyStrip (lines.headD "")) = true) →
        detect_format suffix lines = .ok .txt) ∧
      (startsWithL (pyStrip (lines.headD "")) "GROUP" = false →
        pyIn "=" (pyStrip (lines.headD "")) = false →
        ((startsWithL (pyStrip (lines.headD "")) "<?xml" = true) ∨
          startsWithL (pyStrip (lines.headD "")) "<" = true) →
        detect_format suffix lines = .ok .xml) ∧
      (startsWithL (pyStrip (lines.headD "")) "GROUP" = false →
        pyIn "=" (pyStrip (lines.headD "")) = false →
        startsWithL (pyStrip (lines.headD "")) "<?xml" = false →
        startsWithL (pyStrip (lines.headD "")) "<" = false →
        detect_format suffix lines = .error "Unknown MTL format") := by
  intro suffix lines h1 h2
  simp only [detect_format]
  rw [if_neg h1, if_neg h2]
  refine ⟨?_, ?_, ?_⟩
  · intro hx
    rw [if_pos hx]
  · intro hg he hx
    rw [if_neg ?_, if_pos hx]
    rintro (h | h)
    · rw [hg] at h; exact Bool.false_ne_true h
    · rw [he] at h; exact Bool.false_ne_true h
  · intro hg he hx1 hx2
    rw [if_neg ?_, if_neg ?_]
    · rintro (h | h)
      · rw [hx1] at h; exact Bool.false_ne_true h
      · rw [hx2] at h; exact Bool.false_ne_true h
    · rintro (h | h)
      · rw [hg] at h; exact Bool.false_ne_true h
      · rw [he] at h; exact Bool.false_ne_true h

theorem C6_first_line_detection_witness :
    detect_format ".met" ["  GROUP = L2_METADATA_FILE"] = .ok .txt :=
  (C6_first_line_detection ".met" ["  GROUP = L2_METADATA_FILE"] (by decide) (by decide)).1
    (Or.inl (by decide))

/-- C7 counterexample: a metadata map in which all eight corner coordinates
resolve through the alias chains (the upper-left latitude resolving to the
legal coordinate `0.0`) yet the footprint is `None`, because the source
gates the polygon on Python truthiness (`all([...])`), not on resolution. -/
theorem C7_counterexample :
    ((corner_ul_lon zeroCornerMeta).isSome = true ∧ (corner_ul_lat zeroCornerMeta).isSome = true ∧
     (corner_ur_lon zeroCornerMeta).isSome = true ∧ (corner_ur_lat zeroCornerMeta).isSome = true ∧
     (corner_lr_lon zeroCornerMeta).isSome = true ∧ (corner_lr_lat zeroCornerMeta).isSome = true ∧
     (corner_ll_lon zeroCornerMeta).isSome = true ∧ (corner_ll_lat zeroCornerMeta).isSome = true) ∧
    (get_scene_metadata zeroCornerMeta).footprint = none :=
  ⟨⟨rfl, rfl, rfl, rfl, rfl, rfl, rfl, rfl⟩, rfl⟩

/-- C7 (amended): when all four corner pairs resolve to TRUTHY values
(non-zero, non-null), the footprint is the closed five-point ring
`[UL, UR, LR, LL, UL]` — first point equals last, corners traversed in
exactly that order; when any corner fails to resolve (or resolves to a falsy
value such as `0.0`), the footprint is `None`. -/
theorem C7_footprint_ring :
    (∀ (m : Metadata) (a b c d e f g h : MTLValue),
      corner_ul_lon m = some a → pyTruthyV a = true →
      corner_ul_lat m = some b → pyTruthyV b = true →
      corner_ur_lon m = some c → pyTruthyV c = true →
      corner_ur_lat m = some d → pyTruthyV d = true →
      corner_lr_lon m = some e → pyTruthyV e = true →
      corner_lr_lat m = some f → pyTruthyV f = true →
      corner_ll_lon m = some g → pyTruthyV g = true →
      corner_ll_lat m = some h → pyTruthyV h = true →
      (get_scene_metadata m).footprint =
        some [(a, b), (c, d), (e, f), (g, h), (a, b)])
    ∧ (∀ (m : Metadata),
        (corner_ul_lon m = none ∨ corner_ul_lat m = none ∨ corner_ur_lon m = none ∨
         corner_ur_lat m = none ∨ corner_lr_lon m = none ∨ corner_lr_lat m = none ∨
         corner_ll_lon m = none ∨ corner_ll_lat m = none) →
        (get_scene_metadata m).footprint = none) := by
  constructor
  · intro m a b c d e f g h h1 t1 h2 t2 h3 t3 h4 t4 h5 t5 h6 t6 h7 t7 h8 t8
    simp [get_scene_metadata, h1, h2, h3, h4, h5, h6, h7, h8, optTruthyV,
      t1, t2, t3, t4, t5, t6, t7, t8]
  · intro m hdisj
    rcases hdisj with h | h | h | h | h | h | h | h <;>
      simp [get_scene_metadata, h, optTruthyV]

theorem C7_footprint_ring_witness :
    (get_scene_metadata mock_metadata).footprint =
      some [(.numV (-6800742) 5, .numV 10334375 6),
            (.numV (-67494426) 6, .numV 10332388 6),
            (.numV (-67496022) 6, .numV 9991131 6),
            (.numV (-68008472) 6, .numV 9993051 6),
            (.numV (-6800742) 5, .numV 10334375 6)] :=
  C7_footprint_ring.1 mock_metadata _ _ _ _ _ _ _ _
    rfl (by decide) rfl (by decide) rfl (by decide) rfl (by decide)
    rfl (by decide) rfl (by decide) rfl (by decide) rfl (by decide)

/-- C8: a single-file fetch whose (successful) HTTP response carries
Content-Type `application/json` where a binary file was expected yields a
failed `DownloadResult` — success flag false, error message set, no local
file path — and leaves no file on disk at the derived filename: nothing is
written, and a stale file already at that path is deleted. -/
theorem C8_json_content_type_fails_without_file :
    ∀ (resp : HttpFileResponse) (url : String) (output_dir : PathP) (entity_id : String)
      (now : Nat) (fs : FS),
      resp.statusOk = true →
      pyIn "application/json" (strLower resp.contentType) = true →
      (download_file false resp url output_dir entity_id now fs).1.success = false ∧
      (download_file false resp url output_dir entity_id now fs).1.filepath = none ∧
      (download_file false resp url output_dir entity_id now fs).1.error.isSome = true ∧
      fsFileAt (download_file false resp url output_dir entity_id now fs).2
        (output_dir ++ [derived_filename resp.contentDisposition url entity_id now]) = none ∧
      ((download_file false resp url output_dir entity_id now fs).2.files = fs.files ∨
       (download_file false resp url output_dir entity_id now fs).2.files =
         (fsRemoveFile fs
           (output_dir ++ [derived_filename resp.contentDisposition url entity_id now])).files) := by
  intro resp url output_dir entity_id now fs hstatus hjson
  have hred : download_file false resp url output_dir entity_id now fs =
      (let filepath := output_dir ++ [derived_filename resp.contentDisposition url entity_id now]
       ({ entityId := entity_id, success := false, filepath := none,
          error := some ("Download failed for " ++ entity_id ++
            ": Unexpected JSON response (Content-Type: " ++ strLower resp.contentType ++
            "). Likely invalid/expired signature or file not found."),
          url := url, duration := none },
        if (fsFileAt fs filepath).isSome then fsRemoveFile fs filepath else fs)) := by
    simp only [download_file, hstatus, hjson, Bool.not_true, Bool.false_eq_true, if_false,
      if_true, ite_true, ite_false, eq_self_iff_true, not_true]
  rw [hred]
  dsimp only
  refine ⟨rfl, rfl, rfl, ?_, ?_⟩
  · by_cases hex :
      (fsFileAt fs
        (output_dir ++ [derived_filename resp.contentDisposition url entity_id now])).isSome = true
    · rw [if_pos hex]
      exact fsRemoveFile_at fs _
    · rw [if_neg hex]
      exact Option.not_isSome_iff_eq_none.mp hex
  · by_cases hex :
      (fsFileAt fs
        (output_dir ++ [derived_filename resp.contentDisposition url entity_id now])).isSome = true
    · rw [if_pos hex]
      exact Or.inr rfl
    · rw [if_neg hex]
      exact Or.inl rfl

/-- C2: the orchestrator queries the store for which searched entity ids
already exist and processes exactly the complement: an id already present
in the store never appears in a new list-add call, is never handed to the
per-scene step (so never downloaded or re-registered), and when every
searched id is already stored, the dataset run leaves the world — store and
filesystem included — completely unchanged, which is the idempotency of a
re-run over the same date range and filter. -/
theorem C2_dedup_complement :
    (∀ (cfg : DatasetsConfig) (tempDir : PathP) (nowStr : String) (now : Nat)
        (denv : DatasetEnv) (dataset_name : String) (w : World) (eid : String),
      strMem eid w.dbScenes = true →
      (∀ entry, entry ∈ (process_dataset false cfg tempDir nowStr now denv dataset_name
          w).2.addToListCalls → entry ∈ w.addToListCalls ∨ eid ∉ entry.2) ∧
      (∀ x, x ∈ (process_dataset false cfg tempDir nowStr now denv dataset_name
          w).2.processSceneCalls → x ∈ w.processSceneCalls ∨ x ≠ eid) ∧
      (∀ x, x ∈ (process_dataset false cfg tempDir nowStr now denv dataset_name
          w).2.requestDownloadCalls → x ∈ w.requestDownloadCalls ∨ x ≠ eid))
    ∧ (∀ (cfg : DatasetsConfig) (tempDir : PathP) (nowStr : String) (now : Nat)
        (denv : DatasetEnv) (dataset_name : String) (w : World) (scenes : List SearchScene),
      search_scenes denv.searchOutcome = .ok scenes →
      (∀ s, s ∈ scenes → strMem s.entityId w.dbScenes = true) →
      (process_dataset false cfg tempDir nowStr now denv dataset_name w).2 = w) := by
  constructor
  · intro cfg tempDir nowStr now denv dataset_name w eid hdb
    unfold process_dataset
    split
    · exact ⟨fun entry he => Or.inl he, fun x hx => Or.inl hx, fun x hx => Or.inl hx⟩
    · next scenes heq =>
      dsimp only
      split
      · exact ⟨fun entry he => Or.inl he, fun x hx => Or.inl hx, fun x hx => Or.inl hx⟩
      · split
        · exact ⟨fun entry he => Or.inl he, fun x hx => Or.inl hx, fun x hx => Or.inl hx⟩
        · have hnotnew := mem_db_not_new w (scenes.map (·.entityId)) eid hdb
          have haddEntry : ∀ entry,
              entry ∈ w.addToListCalls ++ [(list_id_for dataset_name nowStr,
                new_ids_for false w (scenes.map (·.entityId)))] →
              entry ∈ w.addToListCalls ∨ eid ∉ entry.2 := by
            intro entry he
            rcases List.mem_append.mp he with h | h
            · exact Or.inl h
            · rcases List.mem_singleton.mp h with rfl
              exact Or.inr hnotnew
          split
          · exact ⟨haddEntry, fun x hx => Or.inl hx, fun x hx => Or.inl hx⟩
          · split
            · exact ⟨haddEntry, fun x hx => Or.inl hx, fun x hx => Or.inl hx⟩
            · next products hopt =>
              have htr := scene_loop_traces false cfg tempDir denv.sceneEnvs products
                dataset_name now
                (new_ids_for false w (scenes.map (·.entityId)))
                { zeroStats with total_scenes := scenes.length }
                { w with addToListCalls := w.addToListCalls ++ [(list_id_for dataset_name nowStr,
                    new_ids_for false w (scenes.map (·.entityId)))] }
              refine ⟨?_, ?_, ?_⟩
              · intro entry he
                rw [if_neg Bool.false_ne_true] at he
                dsimp only at he
                rw [htr.1] at he
                exact haddEntry entry he
              · intro x hx
                rw [if_neg Bool.false_ne_true] at hx
                dsimp only at hx
                rcases htr.2.2.2 x hx with h | h
                · exact Or.inl h
                · exact Or.inr (fun hxe => hnotnew (hxe ▸ h))
              · intro x hx
                rw [if_neg Bool.false_ne_true] at hx
                dsimp only at hx
                rcases htr.2.2.1 x hx with h | h
                · exact Or.inl h
                · exact Or.inr (fun hxe => hnotnew (hxe ▸ h))
  · intro cfg tempDir nowStr now denv dataset_name w scenes hsearch hall
    unfold process_dataset
    rw [hsearch]
    dsimp only
    split
    · rfl
    · rw [new_ids_all_existing w scenes hall]
      rfl

theorem C2_dedup_complement_witness :
    ((process_dataset false cfg0 ["data", "temp"] "TS" 7 denv0 "landsat_ot_c2_l2"
        { w0 with dbScenes := [eid0] }).2 = { w0 with dbScenes := [eid0] }) ∧
    (∀ entry, entry ∈ (process_dataset false cfg0 ["data", "temp"] "TS" 7 denv0
        "landsat_ot_c2_l2" { w0 with dbScenes := [eid0] }).2.addToListCalls →
      entry ∈ ({ w0 with dbScenes := [eid0] } : World).addToListCalls ∨ eid0 ∉ entry.2) := by
  constructor
  · exact C2_dedup_complement.2 cfg0 ["data", "temp"] "TS" 7 denv0 "landsat_ot_c2_l2"
      { w0 with dbScenes := [eid0] } [⟨eid0⟩] rfl (by decide)
  · exact (C2_dedup_complement.1 cfg0 ["data", "temp"] "TS" 7 denv0 "landsat_ot_c2_l2"
      { w0 with dbScenes := [eid0] } eid0 (by decide)).1

/-- C3 counterexample: when `add_scenes_to_list` raises while populating
the list (here: a JSON decode error escaping `_send_request`, which only
catches `RequestException`), the `deleteList` call is NOT invoked at all —
the `try/finally` of bronze_ingestion.py:235-258 begins only after
`add_scenes_to_list` (line 231) and `get_download_options` (line 233) have
returned, so the claim's "exactly once on every exit path" fails. -/
theorem C3_counterexample :
    (process_dataset false cfg0 ["data", "temp"] "TS" 7 denvAddRaises "landsat_ot_c2_l2"
      w0).1 = .error .jsonDecodeError ∧
    (process_dataset false cfg0 ["data", "temp"] "TS" 7 denvAddRaises "landsat_ot_c2_l2"
      w0).2.addToListCalls = [("temp_landsat_ot_c2_l2_TS", [eid0])] ∧
    (process_dataset false cfg0 ["data", "temp"] "TS" 7 denvAddRaises "landsat_ot_c2_l2"
      w0).2.deleteListCalls = [] :=
  ⟨rfl, rfl, rfl⟩

/-- C3 (amended): for a dataset iteration that creates a Scene List
Resource, `deleteList` is invoked exactly once provided `addToList` and the
download-options read both return — on normal completion of the per-scene
loop and regardless of how many scenes failed (per-scene exceptions are
caught inside the loop).  When `addToList` or the options read raises, the
deletion is skipped entirely (see the counterexample). -/
theorem C3_delete_once_after_population :
    ∀ (cfg : DatasetsConfig) (tempDir : PathP) (nowStr : String) (now : Nat)
      (denv : DatasetEnv) (dataset_name : String) (w : World) (scenes : List SearchScene),
      search_scenes denv.searchOutcome = .ok scenes →
      scenes.isEmpty = false →
      (new_ids_for false w (scenes.map (·.entityId))).isEmpty = false →
      (∃ n, add_scenes_to_list denv.addOutcome
        (new_ids_for false w (scenes.map (·.entityId))) = .ok n) →
      (∃ ps, get_download_options denv.optionsOutcome = .ok ps) →
      (process_dataset false cfg tempDir nowStr now denv dataset_name w).2.deleteListCalls
        = w.deleteListCalls ++ [list_id_for dataset_name nowStr] := by
  intro cfg tempDir nowStr now denv dataset_name w scenes hsearch hne hnew hadd hopt
  obtain ⟨n, hadd⟩ := hadd
  obtain ⟨ps, hopt⟩ := hopt
  unfold process_dataset
  rw [hsearch]
  dsimp only
  rw [if_neg (by simp [hne]), if_neg (by simp [hnew]), hadd]
  dsimp only
  rw [hopt]
  dsimp only
  rw [if_neg Bool.false_ne_true]
  dsimp only
  rw [(scene_loop_traces false cfg tempDir denv.sceneEnvs ps dataset_name now _ _ _).2.1]

theorem C3_delete_once_after_population_witness :
    (process_dataset false cfg0 ["data", "temp"] "TS" 7 denv0 "landsat_ot_c2_l2"
      w0).2.deleteListCalls = [] ++ [list_id_for "landsat_ot_c2_l2" "TS"] :=
  C3_delete_once_after_population cfg0 ["data", "temp"] "TS" 7 denv0 "landsat_ot_c2_l2" w0
    [⟨eid0⟩] rfl rfl (by decide) ⟨1, rfl⟩ ⟨[prod0], rfl⟩

/-- C4 counterexample: a scene whose band file downloads fine but whose
metadata file is missing raises after the scratch directory was created,
and the directory is left on disk — there is no `try/finally` around
`_process_scene`, `shutil.rmtree` (line 342) is only on the success path. -/
theorem C4_counterexample :
    (process_scene false cfg0 ["data", "temp"] sceneEnvNoMtl eid0 [prod0] "landsat_ot_c2_l2"
      7 w0).1 = .error (.valueError ("MTL file not found for " ++ eid0)) ∧
    (["data", "temp"] ++ [eid0]) ∈ (process_scene false cfg0 ["data", "temp"] sceneEnvNoMtl
      eid0 [prod0] "landsat_ot_c2_l2" 7 w0).2.fs.dirs ∧
    (process_scene false cfg0 ["data", "temp"] sceneEnvNoMtl eid0 [prod0] "landsat_ot_c2_l2"
      7 w0).2.fs.dirs ≠ w0.fs.dirs := by
  refine ⟨rfl, ?_, ?_⟩
  · have hd : (process_scene false cfg0 ["data", "temp"] sceneEnvNoMtl eid0 [prod0]
        "landsat_ot_c2_l2" 7 w0).2.fs.dirs
        = [["data"], ["data", "temp"], ["data", "temp", eid0]] := rfl
    rw [hd]
    simp
  · have hd : (process_scene false cfg0 ["data", "temp"] sceneEnvNoMtl eid0 [prod0]
        "landsat_ot_c2_l2" 7 w0).2.fs.dirs
        = [["data"], ["data", "temp"], ["data", "temp", eid0]] := rfl
    rw [hd]
    simp [w0]

/-- C4 (amended): the per-scene pipeline removes the scene's scratch
directory only on normal completion — after parsing and storage hand-off —
and on every terminating execution that fails, the filesystem's directories
are either untouched (failure before the directory was created) or still
contain the scratch directory (failure after creation); it is never removed
on a failure path. -/
theorem C4_scratch_dir_removed_only_on_success :
    ∀ (cfg : DatasetsConfig) (tempDir : PathP) (env : SceneEnv) (entity_id : String)
      (products : List Product) (dataset_name : String) (now : Nat) (w : World),
      (∀ r : Nat, (process_scene false cfg tempDir env entity_id products dataset_name now
          w).1 = .ok r →
        tempDir ++ [entity_id] ∉
          (process_scene false cfg tempDir env entity_id products dataset_name now
            w).2.fs.dirs) ∧
      (∀ e : PyErr, (process_scene false cfg tempDir env entity_id products dataset_name now
          w).1 = .error e →
        ((process_scene false cfg tempDir env entity_id products dataset_name now
            w).2.fs.dirs = w.fs.dirs ∨
         tempDir ++ [entity_id] ∈ (process_scene false cfg tempDir env entity_id products
            dataset_name now w).2.fs.dirs)) := by
  intro cfg tempDir env entity_id products dataset_name now w
  unfold process_scene
  dsimp only
  split
  · exact ⟨fun r h => absurd h (by simp), fun e h => Or.inl rfl⟩
  · split
    · exact ⟨fun r h => absurd h (by simp), fun e h => Or.inl rfl⟩
    · exact ⟨fun r h => absurd h (by simp), fun e h => Or.inl rfl⟩
    · split
      · exact ⟨fun r h => absurd h (by simp), fun e h => Or.inl rfl⟩
      · have hmem0 : tempDir ++ [entity_id] ∈
            (mkdirParents w.fs (tempDir ++ [entity_id])).dirs :=
          mkdirParents_mem_self _ _ (by simp)
        split
        · refine ⟨fun r h => absurd h (by simp), fun e h => Or.inr ?_⟩
          rw [(sceneResultsLoop_dbOnly _ _ _ _ _).1]
          dsimp only
          rw [download_files_parallel_dirs]
          exact mkdirParents_mem_mono _ _ _ hmem0
        · split
          · refine ⟨fun r h => absurd h (by simp), fun e h => Or.inr ?_⟩
            rw [(sceneResultsLoop_dbOnly _ _ _ _ _).1]
            dsimp only
            rw [download_files_parallel_dirs]
            exact mkdirParents_mem_mono _ _ _ hmem0
          · split
            · refine ⟨fun r h => absurd h (by simp), fun e h => Or.inr ?_⟩
              rw [(sceneResultsLoop_dbOnly _ _ _ _ _).1]
              dsimp only
              rw [download_files_parallel_dirs]
              exact mkdirParents_mem_mono _ _ _ hmem0
            · split
              · refine ⟨fun r h => absurd h (by simp), fun e h => Or.inr ?_⟩
                rw [(insert_scene_metadata_dbOnly _ _ _ _).1,
                  (sceneResultsLoop_dbOnly _ _ _ _ _).1]
                dsimp only
                rw [download_files_parallel_dirs]
                exact mkdirParents_mem_mono _ _ _ hmem0
              · split
                · refine ⟨fun r h => absurd h (by simp), fun e h => Or.inr ?_⟩
                  rw [(ingest_bands_dbOnly _ _ _ _ _).1,
                    (insert_scene_metadata_dbOnly _ _ _ _).1,
                    (sceneResultsLoop_dbOnly _ _ _ _ _).1]
                  dsimp only
                  rw [download_files_parallel_dirs]
                  exact mkdirParents_mem_mono _ _ _ hmem0
                · refine ⟨fun r h => ?_, fun e h => absurd h (by simp)⟩
                  dsimp only
                  exact rmtree_not_mem_self _ _

theorem C4_scratch_dir_removed_only_on_success_witness :
    (["data", "temp"] ++ [eid0]) ∉ (process_scene false cfg0 ["data", "temp"] sceneEnvOk eid0
      [prod0] "landsat_ot_c2_l2" 7 w0).2.fs.dirs :=
  (C4_scratch_dir_removed_only_on_success cfg0 ["data", "temp"] sceneEnvOk eid0 [prod0]
    "landsat_ot_c2_l2" 7 w0).1 1 rfl

/-- C1 counterexample: an end-to-end dry run produces non-zero simulated
statistics, but the filesystem is NOT byte-for-byte unchanged: directories
ARE created — `scene_dir.mkdir(parents=True)` (bronze_ingestion.py:300) and
`output_dir.mkdir(parents=True)` (m2m_client.py:576) run without a dry-run
guard, and although the per-scene directory is removed again by `rmtree`,
its parents (`data/` and `data/temp/`) remain after the run. -/
theorem C1_counterexample :
    (bronze_run true cfg0 ["data", "temp"] "TS" 7 [("landsat_ot_c2_l2", denv0)]
      w0).1.successful_scenes = 1 ∧
    (bronze_run true cfg0 ["data", "temp"] "TS" 7 [("landsat_ot_c2_l2", denv0)]
      w0).1.total_bands = 1 ∧
    (bronze_run true cfg0 ["data", "temp"] "TS" 7 [("landsat_ot_c2_l2", denv0)]
      w0).2.fs.dirs = [["data"], ["data", "temp"]] ∧
    ([["data"], ["data", "temp"]] : List PathP) ≠ w0.fs.dirs :=
  ⟨rfl, rfl, rfl, by decide⟩

/-- C1 (amended): with dry-run enabled, a full pipeline run produces
non-zero simulated statistics, inserts or updates no database row (scenes,
download log, band rasters), and creates no file — but it does create local
scratch directories (and `rmtree` may delete pre-existing files beneath the
per-scene scratch directory), so the filesystem is not byte-for-byte
unchanged. -/
theorem C1_dry_run_frame :
    (∀ (cfg : DatasetsConfig) (tempDir : PathP) (nowStr : String) (now : Nat)
        (denvs : List (String × DatasetEnv)) (w : World),
      (bronze_run true cfg tempDir nowStr now denvs w).2.dbScenes = w.dbScenes ∧
      (bronze_run true cfg tempDir nowStr now denvs w).2.dbLog = w.dbLog ∧
      (bronze_run true cfg tempDir nowStr now denvs w).2.dbBands = w.dbBands ∧
      (∀ f, f ∈ (bronze_run true cfg tempDir nowStr now denvs w).2.fs.files →
        f ∈ w.fs.files))
    ∧ (bronze_run true cfg0 ["data", "temp"] "TS" 7 [("landsat_ot_c2_l2", denv0)]
        w0).1.total_scenes = 1 := by
  constructor
  · intro cfg tempDir nowStr now denvs w
    exact run_datasets_dry_dbFrame cfg tempDir nowStr now denvs zeroStats w
  · rfl

theorem C1_dry_run_frame_witness :
    (bronze_run true cfg0 ["data", "temp"] "TS" 7 [("landsat_ot_c2_l2", denv0)]
      w0).2.dbScenes = w0.dbScenes ∧
    (bronze_run true cfg0 ["data", "temp"] "TS" 7 [("landsat_ot_c2_l2", denv0)]
      w0).2.dbLog = w0.dbLog :=
  ⟨(C1_dry_run_frame.1 cfg0 ["data", "temp"] "TS" 7 [("landsat_ot_c2_l2", denv0)] w0).1,
   (C1_dry_run_frame.1 cfg0 ["data", "temp"] "TS" 7 [("landsat_ot_c2_l2", denv0)] w0).2.1⟩

theorem C8_json_content_type_fails_without_file_witness :
    (download_file false respJson "http://u/x" ["d"] "E" 7 fsJson).1.success = false ∧
    fsFileAt (download_file false respJson "http://u/x" ["d"] "E" 7 fsJson).2
      (["d"] ++ [derived_filename respJson.contentDisposition "http://u/x" "E" 7]) = none := by
  have h := C8_json_content_type_fails_without_file respJson "http://u/x" ["d"] "E" 7 fsJson
    rfl (by decide)
  exact ⟨h.1, h.2.2.2.1⟩

end Landsat
